import Mathlib

/-!
Shallow embedding of the LLRP client codec `sllurp/llrp_proto.py`
(EPCglobal LLRP v1 binary protocol: TLV/TV parameter encoders and
decoders, the parameter registry, and the high-level ROSpec builder).

Byte strings are modelled as `List Nat` with every element < 256 by
construction of the packers.  Python functions that can raise are
modelled in `Option` (encoders: `none` = the call raises) or in
`Except PyErr` (decoders).  Python's clamping slice `data[a:b]` is
`pySlice`, and `struct.unpack` with an exact-width format is a pattern
match that fails (`structError`) on any other length, exactly as
`struct.error` is raised.
-/

namespace LLRP

/-- Errors a Python call can raise, as far as the codec distinguishes them:
`struct.error`, `KeyError`, `TypeError` (calling the 0-argument
`lambda: None` registered for C1G2Filter with an argument),
`NameError` (reading a never-assigned local), and `LLRPError(msg)`. -/
inductive PyErr where
  | structError
  | keyError
  | typeError
  | nameError
  | llrp (msg : String)
  /-- A bare `raise Exception(msg)` (used by `decode_TagReportContentSelector`). -/
  | exn (msg : String)
  /-- Python's `RecursionError`; the fuelled recursive decoders return it only
  when their fuel (initialised to the buffer length, which strictly bounds
  the recursion depth) runs out, which never happens. -/
  | recursionLimit
  deriving DecidableEq, Repr

/-- Modelled from the spec: `util.BITMASK(n)` lives in `util.py`, which is not under `src/`;
§2 (C3) and the decoders use it as the low-`n`-bit mask (`(1 << n) - 1`). -/
def bitmask (n : Nat) : Nat := 2 ^ n - 1

/-- Source `struct.pack('!B', v)`: one byte, raising for out-of-range values. -/
def pack8 (v : Nat) : Option (List Nat) :=
  if v ≤ 255 then some [v] else none

/-- Source `struct.pack('!b', v)`: one signed byte (two's complement). -/
def packS8 (v : Int) : Option (List Nat) :=
  if -128 ≤ v ∧ v ≤ 127 then some [((v + 256) % 256).toNat] else none

/-- Source `struct.pack('!H', v)`: big-endian 16-bit unsigned. -/
def pack16 (v : Nat) : Option (List Nat) :=
  if v ≤ 65535 then some [v / 256, v % 256] else none

/-- Source `struct.pack('!I', v)`: big-endian 32-bit unsigned. -/
def pack32 (v : Nat) : Option (List Nat) :=
  if v ≤ 4294967295 then
    some [v / 16777216 % 256, v / 65536 % 256, v / 256 % 256, v % 256]
  else none

/-- Big-endian value of the `k` bytes of `bs` starting at offset `off`
(missing bytes read as 0; used only where the byte count is known). -/
def readBE (bs : List Nat) (off k : Nat) : Nat :=
  (List.range k).foldl (fun acc i => acc * 256 + bs.getD (off + i) 0) 0

/-- The 16-bit big-endian field at offset `off` (`length` lives at offset 2
of every TLV header, the type field at offset 0). -/
def read16at (bs : List Nat) (off : Nat) : Nat :=
  256 * bs.getD off 0 + bs.getD (off + 1) 0

/-- The 32-bit big-endian field at offset `off`. -/
def read32at (bs : List Nat) (off : Nat) : Nat := readBE bs off 4

/-- Python's clamping slice `data[a:b]`. -/
def pySlice (data : List Nat) (a b : Nat) : List Nat :=
  (data.drop a).take (b - a)

/-- Association-list lookup, the model of a Python string-keyed dict read
(`none` = `KeyError`). -/
def lookupStr (table : List (String × Nat)) (k : String) : Option Nat :=
  (table.find? (fun p => p.1 = k)).map (·.2)

/-- Association-list lookup keyed by numeric code (the reversed tables). -/
def lookupNat (table : List (Nat × String)) (k : Nat) : Option String :=
  (table.find? (fun p => p.1 = k)).map (·.2)

/-- 10.2.1 ROSpec states: `ROSpecState_Name2Type`. -/
def ROSpecState_Name2Type : List (String × Nat) :=
  [("Disabled", 0), ("Inactive", 1), ("Active", 2)]

/-- 10.2.1.1.1 ROSpec start triggers: `StartTrigger_Name2Type`. -/
def StartTrigger_Name2Type : List (String × Nat) :=
  [("Null", 0), ("Immediate", 1), ("Periodic", 2), ("GPI", 3)]

/-- 10.2.1.1.2 ROSpec stop triggers: `StopTrigger_Name2Type`. -/
def StopTrigger_Name2Type : List (String × Nat) :=
  [("Null", 0), ("Duration", 1), ("GPI with timeout", 2), ("Tag observation", 3)]

/-- 13.2.1 `ROReportTrigger_Name2Type`.  Keys are strings; an integer
subscript raises `KeyError`. -/
def ROReportTrigger_Name2Type : List (String × Nat) :=
  [("None", 0), ("Upon_N_Tags_Or_End_Of_AISpec", 1), ("Upon_N_Tags_Or_End_Of_ROSpec", 2)]

/-- 13.2.6.11 `ConnEvent_Type2Name` (the reversal of `ConnEvent_Name2Type`). -/
def ConnEvent_Type2Name : List (Nat × String) :=
  [(0, "Success"),
   (1, "Failed (a Reader initiated connection already exists)"),
   (2, "Failed (a Client initiated connection already exists)"),
   (3, "Failed (any reason other than a connection already exists)"),
   (4, "Another connection attempted")]

/-- 14.1.1 `Error_Type2Name` (the reversal of `Error_Name2Type`). -/
def Error_Type2Name : List (Nat × String) :=
  [(0, "Success"), (100, "ParameterError"), (101, "FieldError"),
   (102, "UnexpectedParameter"), (103, "MissingParameter"),
   (104, "DuplicateParameter"), (105, "OverflowParameter"),
   (106, "OverflowField"), (107, "UnknownParameter"), (108, "UnknownField"),
   (109, "UnsupportedMessage"), (110, "UnsupportedVersion"),
   (111, "UnsupportedParameter"), (200, "P_ParameterError"),
   (201, "P_FieldError"), (202, "P_UnexpectedParameter"),
   (203, "P_MissingParameter"), (204, "P_DuplicateParameter"),
   (205, "P_OverflowParameter"), (206, "P_OverflowField"),
   (207, "P_UnknownParameter"), (208, "P_UnknownField"),
   (209, "P_UnsupportedParameter"), (300, "A_Invalid"),
   (301, "A_OutOfRange"), (401, "DeviceError")]

/-- The source pattern closing every TLV parameter encoder:
`struct.pack(msg_header, msgtype, len(data) + msg_header_len, extras…) + data`,
where `msg_header` is `!HH` followed by the formats of `extras` and
`msg_header_len = 4 + len(extras)`. -/
def tlvEncode (msgtype : Nat) (extras body : Option (List Nat)) : Option (List Nat) := do
  let e ← extras
  let b ← body
  let tb ← pack16 msgtype
  let lb ← pack16 (b.length + (4 + e.length))
  pure (tb ++ lb ++ e ++ b)

/-- A Python value whose truthiness the codec tests: the builder stores
`True`/`False` in the content selector, the decoder stores the ints 0/1. -/
inductive PyTruthy where
  | ofBool (b : Bool)
  | ofNat (n : Nat)
  deriving DecidableEq, Repr

/-- Python truthiness of a `PyTruthy`. -/
def PyTruthy.truthy : PyTruthy → Bool
  | .ofBool b => b
  | .ofNat n => n ≠ 0

/-- A dict value that is either a string (the builder stores trigger names)
or an int (the decoder stores raw trigger codes). -/
inductive PyStrNum where
  | str (s : String)
  | num (n : Nat)
  deriving DecidableEq, Repr

/-- Source `encode_bitstring(bstr, length_bytes)`: the bytes of `bstr` followed by
zero padding up to `length_bytes` (no truncation; negative padding count
yields no padding, as in Python list multiplication). -/
def encode_bitstring (bstr : List Nat) (lengthBytes : Nat) : List Nat :=
  bstr ++ List.replicate (lengthBytes - bstr.length) 0

/-- Input dict of `encode_C1G2TargetTag` (16.2.1.3.1.1). -/
structure C1G2TargetTagPar where
  MB : Nat
  M : Bool
  Pointer : Nat
  MaskBitCount : Nat
  TagMask : List Nat
  DataBitCount : Nat
  TagData : List Nat
  deriving DecidableEq, Repr

/-- Source `encode_C1G2TargetTag` (type 339). -/
def encode_C1G2TargetTag (par : C1G2TargetTagPar) : Option (List Nat) :=
  tlvEncode 339 (some []) (do
    let b0 ← pack8 ((par.MB <<< 6) ||| (if par.M then 1 <<< 5 else 0))
    let b1 ← pack16 par.Pointer
    let b2 ← pack16 par.MaskBitCount
    let mask := if par.MaskBitCount ≠ 0 then
        encode_bitstring par.TagMask ((par.MaskBitCount - 1) / 8 + 1)
      else []
    let b3 ← pack16 par.DataBitCount
    let dataBits := if par.DataBitCount ≠ 0 then
        encode_bitstring par.TagData ((par.DataBitCount - 1) / 8 + 1)
      else []
    pure (b0 ++ b1 ++ b2 ++ mask ++ b3 ++ dataBits))

/-- Source `par['C1G2TargetTag']` may be a single dict or a list of dicts;
`encode_C1G2TagSpec` wraps a non-list in a 1-tuple. -/
inductive TargetTagsVal where
  | single (t : C1G2TargetTagPar)
  | listOf (ts : List C1G2TargetTagPar)
  deriving DecidableEq, Repr

/-- Input dict of `encode_C1G2TagSpec`. -/
structure C1G2TagSpecPar where
  C1G2TargetTag : TargetTagsVal
  deriving DecidableEq, Repr

/-- Source `encode_C1G2TagSpec` (type 338).  The source loop is
`for target in targets: data = encode_C1G2TargetTag(target)`: every
target is encoded (any failure propagates), but `data` keeps only the
LAST target's bytes; an empty list leaves `data` unassigned
(`NameError`, modelled as `none`). -/
def encode_C1G2TagSpec (par : C1G2TagSpecPar) : Option (List Nat) :=
  let targets := match par.C1G2TargetTag with
    | .single t => [t]
    | .listOf ts => ts
  tlvEncode 338 (some []) (do
    let encs ← targets.mapM encode_C1G2TargetTag
    encs.getLast?)

/-- Input dict of `encode_C1G2Read` (16.2.1.3.2.2). -/
structure C1G2ReadPar where
  OpSpecID : Nat
  AccessPassword : Nat
  MB : Nat
  WordPtr : Nat
  WordCount : Nat
  deriving DecidableEq, Repr

/-- Source `encode_C1G2Read` (type 341). -/
def encode_C1G2Read (par : C1G2ReadPar) : Option (List Nat) :=
  tlvEncode 341 (some []) (do
    let b0 ← pack16 par.OpSpecID
    let b1 ← pack32 par.AccessPassword
    let b2 ← pack8 (par.MB <<< 6)
    let b3 ← pack16 par.WordPtr
    let b4 ← pack16 par.WordCount
    pure (b0 ++ b1 ++ b2 ++ b3 ++ b4))

/-- Input dict of `encode_C1G2Write` and `encode_C1G2BlockWrite`. -/
structure C1G2WritePar where
  OpSpecID : Nat
  AccessPassword : Nat
  MB : Nat
  WordPtr : Nat
  WriteDataWordCount : Nat
  WriteData : List Nat
  deriving DecidableEq, Repr

/-- Shared body of `encode_C1G2Write` / `encode_C1G2BlockWrite`
(16.2.1.3.2.3 / 16.2.1.3.2.7): the two functions differ only in the
type code they wrap with. -/
def c1g2WriteBody (par : C1G2WritePar) : Option (List Nat) := do
  let b0 ← pack16 par.OpSpecID
  let b1 ← pack32 par.AccessPassword
  let b2 ← pack8 (par.MB <<< 6)
  let b3 ← pack16 par.WordPtr
  let b4 ← pack16 par.WriteDataWordCount
  pure (b0 ++ b1 ++ b2 ++ b3 ++ b4 ++ par.WriteData)

/-- Source `encode_C1G2Write` (type 342). -/
def encode_C1G2Write (par : C1G2WritePar) : Option (List Nat) :=
  tlvEncode 342 (some []) (c1g2WriteBody par)

/-- Source `encode_C1G2BlockWrite` (type 347) — the standalone function, which is
NOT what the registry binds for the name C1G2BlockWrite. -/
def encode_C1G2BlockWrite (par : C1G2WritePar) : Option (List Nat) :=
  tlvEncode 347 (some []) (c1g2WriteBody par)

/-- Input dict of `encode_C1G2LockPayload` (16.2.1.3.2.5.1);
`DataField` is packed signed (`!b`). -/
structure C1G2LockPayloadPar where
  Privilege : Nat
  DataField : Int
  deriving DecidableEq, Repr

/-- Source `encode_C1G2LockPayload` (type 345). -/
def encode_C1G2LockPayload (par : C1G2LockPayloadPar) : Option (List Nat) :=
  tlvEncode 345 (some []) (do
    let b0 ← pack8 par.Privilege
    let b1 ← packS8 par.DataField
    pure (b0 ++ b1))

/-- Input dict of `encode_C1G2Lock` (16.2.1.3.2.5). -/
structure C1G2LockPar where
  OpSpecID : Nat
  AccessPassword : Nat
  LockPayload : List C1G2LockPayloadPar
  deriving DecidableEq, Repr

/-- Source `encode_C1G2Lock` (type 344). -/
def encode_C1G2Lock (par : C1G2LockPar) : Option (List Nat) :=
  tlvEncode 344 (some []) (do
    let b0 ← pack16 par.OpSpecID
    let b1 ← pack32 par.AccessPassword
    let payloads ← par.LockPayload.mapM encode_C1G2LockPayload
    pure (b0 ++ b1 ++ payloads.flatten))

/-- The OpSpec dict inside an AccessCommand.  `encode_AccessCommand`
dispatches on which keys are present: `WriteData` → write/block-write,
`LockPayload` → lock, otherwise read. -/
inductive OpSpecPar where
  | write (w : C1G2WritePar)
  | lock (l : C1G2LockPar)
  | read (r : C1G2ReadPar)
  deriving DecidableEq, Repr

/-- Input dict of `encode_AccessCommand`. -/
structure AccessCommandPar where
  TagSpecParameter : C1G2TagSpecPar
  OpSpecParameter : OpSpecPar
  deriving DecidableEq, Repr

/-- Source `encode_AccessCommand` (type 209).  Note the write dispatch calls the
standalone `encode_C1G2BlockWrite` when `WriteDataWordCount > 1`. -/
def encode_AccessCommand (par : AccessCommandPar) : Option (List Nat) :=
  tlvEncode 209 (some []) (do
    let tagSpec ← encode_C1G2TagSpec par.TagSpecParameter
    let op ← match par.OpSpecParameter with
      | .write w =>
          if w.WriteDataWordCount > 1 then encode_C1G2BlockWrite w
          else encode_C1G2Write w
      | .lock l => encode_C1G2Lock l
      | .read r => encode_C1G2Read r
    pure (tagSpec ++ op))

/-- Input dict of `encode_AccessSpecStopTrigger` (17.2.5.1). -/
structure AccessSpecStopTriggerPar where
  AccessSpecStopTriggerType : Nat
  OperationCountValue : Nat
  deriving DecidableEq, Repr

/-- Source `encode_AccessSpecStopTrigger` (type 208). -/
def encode_AccessSpecStopTrigger (par : AccessSpecStopTriggerPar) : Option (List Nat) :=
  tlvEncode 208 (some []) (do
    let b0 ← pack8 par.AccessSpecStopTriggerType
    let b1 ← pack16 par.OperationCountValue
    pure (b0 ++ b1))

/-- Input dict of `encode_AccessReportSpec` (16.2.7.2). -/
structure AccessReportSpecPar where
  AccessReportTrigger : Nat
  deriving DecidableEq, Repr

/-- Source `encode_AccessReportSpec` (type 239). -/
def encode_AccessReportSpec (par : AccessReportSpecPar) : Option (List Nat) :=
  tlvEncode 239 (some []) (pack8 par.AccessReportTrigger)

/-- Input dict of `encode_AccessSpec` (17.2.5.1). -/
structure AccessSpecPar where
  AccessSpecID : Nat
  AntennaID : Nat
  ProtocolID : Nat
  C : Bool
  ROSpecID : Nat
  AccessSpecStopTrigger : AccessSpecStopTriggerPar
  AccessCommand : AccessCommandPar
  AccessReportSpec : Option AccessReportSpecPar
  deriving DecidableEq, Repr

/-- Source `encode_AccessSpec` (type 207). -/
def encode_AccessSpec (par : AccessSpecPar) : Option (List Nat) :=
  tlvEncode 207 (some []) (do
    let b0 ← pack32 par.AccessSpecID
    let b1 ← pack16 par.AntennaID
    let b2 ← pack8 par.ProtocolID
    let b3 ← pack8 (if par.C then 1 <<< 7 else 0)
    let b4 ← pack32 par.ROSpecID
    let st ← encode_AccessSpecStopTrigger par.AccessSpecStopTrigger
    let ac ← encode_AccessCommand par.AccessCommand
    let ars ← match par.AccessReportSpec with
      | some a => encode_AccessReportSpec a
      | none => pure []
    pure (b0 ++ b1 ++ b2 ++ b3 ++ b4 ++ st ++ ac ++ ars))

/-- Input dict of `encode_ROSpecStartTrigger` (16.2.4.1.1.1); the trigger
type is a name looked up in `StartTrigger_Name2Type`. -/
structure ROSpecStartTriggerPar where
  ROSpecStartTriggerType : String
  deriving DecidableEq, Repr

/-- Source `encode_ROSpecStartTrigger` (type 179, header `!HHB`, empty body). -/
def encode_ROSpecStartTrigger (par : ROSpecStartTriggerPar) : Option (List Nat) :=
  tlvEncode 179 (do
    let t ← lookupStr StartTrigger_Name2Type par.ROSpecStartTriggerType
    pack8 t) (some [])

/-- Input dict of `encode_ROSpecStopTrigger` (16.2.4.1.1.2). -/
structure ROSpecStopTriggerPar where
  ROSpecStopTriggerType : String
  DurationTriggerValue : Nat
  deriving DecidableEq, Repr

/-- Source `encode_ROSpecStopTrigger` (type 182, header `!HHBI`, empty body). -/
def encode_ROSpecStopTrigger (par : ROSpecStopTriggerPar) : Option (List Nat) :=
  tlvEncode 182 (do
    let t ← lookupStr StopTrigger_Name2Type par.ROSpecStopTriggerType
    let b0 ← pack8 t
    let b1 ← pack32 par.DurationTriggerValue
    pure (b0 ++ b1)) (some [])

/-- Input dict of `encode_ROBoundarySpec` (16.2.4.1.1). -/
structure ROBoundarySpecPar where
  ROSpecStartTrigger : ROSpecStartTriggerPar
  ROSpecStopTrigger : ROSpecStopTriggerPar
  deriving DecidableEq, Repr

/-- Source `encode_ROBoundarySpec` (type 178). -/
def encode_ROBoundarySpec (par : ROBoundarySpecPar) : Option (List Nat) :=
  tlvEncode 178 (some []) (do
    let st ← encode_ROSpecStartTrigger par.ROSpecStartTrigger
    let sp ← encode_ROSpecStopTrigger par.ROSpecStopTrigger
    pure (st ++ sp))

/-- Input dict of `encode_AISpecStopTrigger` (16.2.4.2.1). -/
structure AISpecStopTriggerPar where
  AISpecStopTriggerType : String
  DurationTriggerValue : Nat
  deriving DecidableEq, Repr

/-- Source `encode_AISpecStopTrigger` (type 184). -/
def encode_AISpecStopTrigger (par : AISpecStopTriggerPar) : Option (List Nat) :=
  tlvEncode 184 (some []) (do
    let t ← lookupStr StopTrigger_Name2Type par.AISpecStopTriggerType
    let b0 ← pack8 t
    let b1 ← pack32 par.DurationTriggerValue
    pure (b0 ++ b1))

/-- Input dict of `encode_RFReceiver` (16.2.6.7). -/
structure RFReceiverPar where
  ReceiverSensitivity : Nat
  deriving DecidableEq, Repr

/-- Source `encode_RFReceiver` (type 223). -/
def encode_RFReceiver (par : RFReceiverPar) : Option (List Nat) :=
  tlvEncode 223 (some []) (pack16 par.ReceiverSensitivity)

/-- Input dict of `encode_RFTransmitter` (16.2.6.8). -/
structure RFTransmitterPar where
  HopTableId : Nat
  ChannelIndex : Nat
  TransmitPower : Nat
  deriving DecidableEq, Repr

/-- Source `encode_RFTransmitter` (type 224). -/
def encode_RFTransmitter (par : RFTransmitterPar) : Option (List Nat) :=
  tlvEncode 224 (some []) (do
    let b0 ← pack16 par.HopTableId
    let b1 ← pack16 par.ChannelIndex
    let b2 ← pack16 par.TransmitPower
    pure (b0 ++ b1 ++ b2))

/-- Input dict of `encode_C1G2RFControl` (16.3.1.2.1.2). -/
structure C1G2RFControlPar where
  ModeIndex : Nat
  Tari : Nat
  deriving DecidableEq, Repr

/-- Source `encode_C1G2RFControl` (type 335). -/
def encode_C1G2RFControl (par : C1G2RFControlPar) : Option (List Nat) :=
  tlvEncode 335 (some []) (do
    let b0 ← pack16 par.ModeIndex
    let b1 ← pack16 par.Tari
    pure (b0 ++ b1))

/-- Input dict of `encode_C1G2SingulationControl` (16.3.1.2.1.3);
`Session << 6` overflows the `!B` field for any session > 3. -/
structure C1G2SingulationControlPar where
  Session : Nat
  TagPopulation : Nat
  TagTransitTime : Nat
  deriving DecidableEq, Repr

/-- Source `encode_C1G2SingulationControl` (type 336). -/
def encode_C1G2SingulationControl (par : C1G2SingulationControlPar) : Option (List Nat) :=
  tlvEncode 336 (some []) (do
    let b0 ← pack8 (par.Session <<< 6)
    let b1 ← pack16 par.TagPopulation
    let b2 ← pack32 par.TagTransitTime
    pure (b0 ++ b1 ++ b2))

/-- Input dict of `encode_C1G2InventoryCommand` (16.3.1.2.1).  The
registry encoder for an embedded `C1G2Filter` is `lambda: None`;
calling it with the parameter dict raises `TypeError`, so a present
filter (of any shape, modelled as `Unit`) makes encoding fail. -/
structure C1G2InventoryCommandPar where
  TagInventoryStateAware : Bool
  C1G2Filter : Option Unit
  C1G2RFControl : Option C1G2RFControlPar
  C1G2SingulationControl : Option C1G2SingulationControlPar
  deriving DecidableEq, Repr

/-- Source `encode_C1G2InventoryCommand` (type 330). -/
def encode_C1G2InventoryCommand (par : C1G2InventoryCommandPar) : Option (List Nat) :=
  tlvEncode 330 (some []) (do
    let b0 ← pack8 ((if par.TagInventoryStateAware then 1 else 0) <<< 7)
    let filt ← match par.C1G2Filter with
      | some _ => (none : Option (List Nat))
      | none => pure []
    let rf ← match par.C1G2RFControl with
      | some r => encode_C1G2RFControl r
      | none => pure []
    let sing ← match par.C1G2SingulationControl with
      | some s => encode_C1G2SingulationControl s
      | none => pure []
    pure (b0 ++ filt ++ rf ++ sing))

/-- Input dict of `encode_AntennaConfiguration` (16.2.6.6). -/
structure AntennaConfigurationPar where
  AntennaID : Nat
  RFReceiver : Option RFReceiverPar
  RFTransmitter : Option RFTransmitterPar
  C1G2InventoryCommand : Option C1G2InventoryCommandPar
  deriving DecidableEq, Repr

/-- Source `encode_AntennaConfiguration` (type 222). -/
def encode_AntennaConfiguration (par : AntennaConfigurationPar) : Option (List Nat) :=
  tlvEncode 222 (some []) (do
    let b0 ← pack16 par.AntennaID
    let rx ← match par.RFReceiver with
      | some r => encode_RFReceiver r
      | none => pure []
    let tx ← match par.RFTransmitter with
      | some t => encode_RFTransmitter t
      | none => pure []
    let inv ← match par.C1G2InventoryCommand with
      | some c => encode_C1G2InventoryCommand c
      | none => pure []
    pure (b0 ++ rx ++ tx ++ inv))

/-- Input dict of `encode_InventoryParameterSpec` (16.2.4.2.2). -/
structure InventoryParameterSpecPar where
  InventoryParameterSpecID : Nat
  ProtocolID : Nat
  AntennaConfiguration : List AntennaConfigurationPar
  deriving DecidableEq, Repr

/-- Source `encode_InventoryParameterSpec` (type 186). -/
def encode_InventoryParameterSpec (par : InventoryParameterSpecPar) : Option (List Nat) :=
  tlvEncode 186 (some []) (do
    let b0 ← pack16 par.InventoryParameterSpecID
    let b1 ← pack8 par.ProtocolID
    let confs ← par.AntennaConfiguration.mapM encode_AntennaConfiguration
    pure (b0 ++ b1 ++ confs.flatten))

/-- Input dict of `encode_AISpec` (16.2.4.2).  In the source
`par['AntennaIDs']` is either a whitespace-joined string of decimal ids
or a list; both are normalised to a list before packing, modelled here
as the list of antenna ids. -/
structure AISpecPar where
  AntennaIDs : List Nat
  AISpecStopTrigger : AISpecStopTriggerPar
  InventoryParameterSpec : InventoryParameterSpecPar
  deriving DecidableEq, Repr

/-- Source `encode_AISpec` (type 183, header `!HHH` carrying the antenna count). -/
def encode_AISpec (par : AISpecPar) : Option (List Nat) :=
  tlvEncode 183 (pack16 par.AntennaIDs.length) (do
    let ants ← par.AntennaIDs.mapM pack16
    let st ← encode_AISpecStopTrigger par.AISpecStopTrigger
    let inv ← encode_InventoryParameterSpec par.InventoryParameterSpec
    pure (ants.flatten ++ st ++ inv))

/-- The 10 `Enable*` field names of `TLV_struct['TagReportContentSelector']`,
in registry order (bit 15 down to bit 6). -/
def TagReportContentSelector_fields : List String :=
  ["EnableROSpecID", "EnableSpecIndex", "EnableInventoryParameterSpecID",
   "EnableAntennaID", "EnableChannelIndex", "EnablePeakRRSI",
   "EnableFirstSeenTimestamp", "EnableLastSeenTimestamp",
   "EnableTagSeenCount", "EnableAccessSpecID"]

/-- The content selector dict: field name to truthiness-tested value. -/
abbrev SelectorDict := List (String × PyTruthy)

/-- Source `field in par and par[field]` for the selector dict. -/
def selFieldOn (par : SelectorDict) (field : String) : Bool :=
  match par.find? (fun p => p.1 = field) with
  | some (_, v) => v.truthy
  | none => false

/-- The flag word of `encode_TagReportContentSelector`: bit 15 for the
first registry field, descending. -/
def selFlags (par : SelectorDict) : Nat :=
  (TagReportContentSelector_fields.enum).foldl
    (fun fl p => if selFieldOn par p.2 then fl ||| (1 <<< (15 - p.1)) else fl) 0

/-- Source `encode_TagReportContentSelector` (type 238). -/
def encode_TagReportContentSelector (par : SelectorDict) : Option (List Nat) :=
  tlvEncode 238 (some []) (pack16 (selFlags par))

/-- Input dict of `encode_ROReportSpec` (16.2.7.1); the trigger is fed to
`ROReportTrigger_Name2Type[...]`, whose keys are strings, so a numeric
trigger (as produced by `decode_ROReportSpec`) raises `KeyError`. -/
structure ROReportSpecPar where
  /-- The `'Type'` key that `decode_ROReportSpec` adds to the dict (and the
  encoder ignores); absent in builder-made dicts. -/
  TypeField : Option Nat := none
  N : Nat
  ROReportTrigger : PyStrNum
  TagReportContentSelector : SelectorDict
  deriving DecidableEq, Repr

/-- Source `encode_ROReportSpec` (type 237, header `!HHBH`). -/
def encode_ROReportSpec (par : ROReportSpecPar) : Option (List Nat) :=
  tlvEncode 237 (do
    let t ← match par.ROReportTrigger with
      | .str s => lookupStr ROReportTrigger_Name2Type s
      | .num _ => none
    let b0 ← pack8 t
    let b1 ← pack16 par.N
    pure (b0 ++ b1)) (encode_TagReportContentSelector par.TagReportContentSelector)

/-- Input dict of `encode_ROSpec` (16.2.4.1). -/
structure ROSpecPar where
  ROSpecID : Nat
  Priority : Nat
  CurrentState : String
  ROBoundarySpec : ROBoundarySpecPar
  AISpec : AISpecPar
  ROReportSpec : ROReportSpecPar
  deriving DecidableEq, Repr

/-- Source `encode_ROSpec` (type 177, header `!HHIBB`).  Note the source masks
the ROSpecID with `BITMASK(10)` before packing it into the 32-bit field. -/
def encode_ROSpec (par : ROSpecPar) : Option (List Nat) :=
  tlvEncode 177 (do
    let m ← pack32 (par.ROSpecID &&& bitmask 10)
    let p ← pack8 (par.Priority &&& bitmask 7)
    let s0 ← lookupStr ROSpecState_Name2Type par.CurrentState
    let s ← pack8 (s0 &&& bitmask 7)
    pure (m ++ p ++ s)) (do
    let b ← encode_ROBoundarySpec par.ROBoundarySpec
    let a ← encode_AISpec par.AISpec
    let r ← encode_ROReportSpec par.ROReportSpec
    pure (b ++ a ++ r))

/-- One structured value per TLV parameter encoder registered in
`TLV_struct` with a 10-bit (≥ 128) type code. -/
inductive TLVEncInput where
  | roSpec (p : ROSpecPar)
  | roBoundarySpec (p : ROBoundarySpecPar)
  | roSpecStartTrigger (p : ROSpecStartTriggerPar)
  | roSpecStopTrigger (p : ROSpecStopTriggerPar)
  | aiSpec (p : AISpecPar)
  | aiSpecStopTrigger (p : AISpecStopTriggerPar)
  | inventoryParameterSpec (p : InventoryParameterSpecPar)
  | antennaConfiguration (p : AntennaConfigurationPar)
  | rfReceiver (p : RFReceiverPar)
  | rfTransmitter (p : RFTransmitterPar)
  | c1g2InventoryCommand (p : C1G2InventoryCommandPar)
  | c1g2Filter (p : Unit)
  | c1g2RFControl (p : C1G2RFControlPar)
  | c1g2SingulationControl (p : C1G2SingulationControlPar)
  | roReportSpec (p : ROReportSpecPar)
  | tagReportContentSelector (p : SelectorDict)
  | accessSpec (p : AccessSpecPar)
  | accessSpecStopTrigger (p : AccessSpecStopTriggerPar)
  | accessCommand (p : AccessCommandPar)
  | c1g2TagSpec (p : C1G2TagSpecPar)
  | c1g2TargetTag (p : C1G2TargetTagPar)
  | c1g2Read (p : C1G2ReadPar)
  | c1g2Write (p : C1G2WritePar)
  | c1g2BlockWrite (p : C1G2WritePar)
  | c1g2Lock (p : C1G2LockPar)
  | c1g2LockPayload (p : C1G2LockPayloadPar)
  | accessReportSpec (p : AccessReportSpecPar)

/-- The TLV registry's parameter encoders (`TLV_struct[name]['encode']` for
every registered name with a parameter type code ≥ 128).  The entry for
C1G2Filter is `lambda: None` (raises `TypeError` when applied to a
parameter), and the entry for C1G2BlockWrite is `encode_C1G2Write`. -/
def tlvParamEncode : TLVEncInput → Option (List Nat)
  | .roSpec p => encode_ROSpec p
  | .roBoundarySpec p => encode_ROBoundarySpec p
  | .roSpecStartTrigger p => encode_ROSpecStartTrigger p
  | .roSpecStopTrigger p => encode_ROSpecStopTrigger p
  | .aiSpec p => encode_AISpec p
  | .aiSpecStopTrigger p => encode_AISpecStopTrigger p
  | .inventoryParameterSpec p => encode_InventoryParameterSpec p
  | .antennaConfiguration p => encode_AntennaConfiguration p
  | .rfReceiver p => encode_RFReceiver p
  | .rfTransmitter p => encode_RFTransmitter p
  | .c1g2InventoryCommand p => encode_C1G2InventoryCommand p
  | .c1g2Filter _ => none
  | .c1g2RFControl p => encode_C1G2RFControl p
  | .c1g2SingulationControl p => encode_C1G2SingulationControl p
  | .roReportSpec p => encode_ROReportSpec p
  | .tagReportContentSelector p => encode_TagReportContentSelector p
  | .accessSpec p => encode_AccessSpec p
  | .accessSpecStopTrigger p => encode_AccessSpecStopTrigger p
  | .accessCommand p => encode_AccessCommand p
  | .c1g2TagSpec p => encode_C1G2TagSpec p
  | .c1g2TargetTag p => encode_C1G2TargetTag p
  | .c1g2Read p => encode_C1G2Read p
  | .c1g2Write p => encode_C1G2Write p
  | .c1g2BlockWrite p => encode_C1G2Write p
  | .c1g2Lock p => encode_C1G2Lock p
  | .c1g2LockPayload p => encode_C1G2LockPayload p
  | .accessReportSpec p => encode_AccessReportSpec p

/-! ### Decoders.
`struct.unpack` with a fixed format requires the argument to have exactly
the format's size, else it raises `struct.error`; each `unpack_*` below is
the corresponding exact-width pattern match. -/

/-- Source `struct.unpack('!B', bs)`. -/
def unpack_B : List Nat → Option Nat
  | [a] => some a
  | _ => none

/-- Source `struct.unpack('!H', bs)`. -/
def unpack_H : List Nat → Option Nat
  | [a, b] => some (256 * a + b)
  | _ => none

/-- Source `struct.unpack('!I', bs)`. -/
def unpack_I : List Nat → Option Nat
  | [a, b, c, d] => some (((a * 256 + b) * 256 + c) * 256 + d)
  | _ => none

/-- Source `struct.unpack('!Q', bs)`. -/
def unpack_Q : List Nat → Option Nat
  | [a, b, c, d, e, f, g, h] =>
      some (((((((a * 256 + b) * 256 + c) * 256 + d) * 256 + e) * 256 + f)
        * 256 + g) * 256 + h)
  | _ => none

/-- Source `struct.unpack('!HH', bs)`. -/
def unpack_HH : List Nat → Option (Nat × Nat)
  | [a, b, c, d] => some (256 * a + b, 256 * c + d)
  | _ => none

/-- Source `struct.unpack('!BH', bs)`. -/
def unpack_BH : List Nat → Option (Nat × Nat)
  | [a, b, c] => some (a, 256 * b + c)
  | _ => none

/-- Source `struct.unpack('!HHH', bs)`. -/
def unpack_HHH : List Nat → Option (Nat × Nat × Nat)
  | [a, b, c, d, e, f] => some (256 * a + b, 256 * c + d, 256 * e + f)
  | _ => none

/-- Source `struct.unpack('!HHBH', bs)`. -/
def unpack_HHBH : List Nat → Option (Nat × Nat × Nat × Nat)
  | [a, b, c, d, e, f, g] => some (256 * a + b, 256 * c + d, e, 256 * f + g)
  | _ => none

/-- The dict `decode_FieldError` builds (16.2.8.1.1). -/
structure FieldErrorPar where
  FieldNum : Nat
  deriving DecidableEq, Repr

/-- Source `decode_FieldError` (type 288): probe that returns `(None, data)` when
the leading 10-bit type is not 288. -/
def decode_FieldError (data : List Nat) : Except PyErr (Option FieldErrorPar × List Nat) :=
  if data = [] then .ok (none, data) else
  match unpack_HH (data.take 4) with
  | none => .error .structError
  | some (t, length) =>
    if t &&& bitmask 10 ≠ 288 then .ok (none, data) else
    let body := pySlice data 4 length
    match unpack_H (body.take 2) with
    | none => .error .structError
    | some n => .ok (some { FieldNum := n }, data.drop length)

/-- The dict `decode_ParameterError` builds (16.2.8.1.2); the parameter is
self-recursive. -/
inductive ParameterErrorPar where
  | mk (ParameterType ErrorCode : Nat) (FieldError : Option FieldErrorPar)
       (ParameterError : Option ParameterErrorPar)

/-- Source `decode_ParameterError` (type 289), fuelled: every self-call receives a
strictly shorter buffer, so fuel = input length can never run out. -/
def decode_ParameterErrorF : Nat → List Nat → Except PyErr (Option ParameterErrorPar × List Nat)
  | 0, _ => .error .recursionLimit
  | fuel + 1, data =>
    if data = [] then .ok (none, data) else
    match unpack_HH (data.take 4) with
    | none => .error .structError
    | some (t, length) =>
      if t &&& bitmask 10 ≠ 289 then .ok (none, data) else
      let body := pySlice data 4 length
      match unpack_HH (body.take 4) with
      | none => .error .structError
      | some (pt, ec) =>
        match decode_FieldError (body.drop 4) with
        | .error e => .error e
        | .ok (fe, b1) =>
          match decode_ParameterErrorF fuel b1 with
          | .error e => .error e
          | .ok (pe, b2) =>
            if b2 ≠ [] then .error (.llrp "junk at end of message")
            else .ok (some (.mk pt ec fe pe), data.drop length)

/-- Source `decode_ParameterError`. -/
def decode_ParameterError (data : List Nat) : Except PyErr (Option ParameterErrorPar × List Nat) :=
  decode_ParameterErrorF data.length data

/-- The dict `decode_LLRPStatus` builds (16.2.8.1): `StatusCode` is set only
when the 16-bit code is a key of `Error_Type2Name` (the `except KeyError`
branch merely logs); `ErrorDescription` is the raw byte slice. -/
structure LLRPStatusPar where
  StatusCode : Option String
  ErrorDescription : List Nat
  FieldError : Option FieldErrorPar
  ParameterError : Option ParameterErrorPar

/-- Source `decode_LLRPStatus` (type 287). -/
def decode_LLRPStatus (data : List Nat) : Except PyErr (Option LLRPStatusPar × List Nat) :=
  if data = [] then .ok (none, data) else
  match unpack_HH (data.take 4) with
  | none => .error .structError
  | some (t, length) =>
    if t &&& bitmask 10 ≠ 287 then .ok (none, data) else
    let body := pySlice data 4 length
    match unpack_HH (body.take 4) with
    | none => .error .structError
    | some (code, n) =>
      let statusCode := lookupNat Error_Type2Name code
      let errDesc := pySlice body 4 (4 + n)
      match decode_FieldError (body.drop (4 + n)) with
      | .error e => .error e
      | .ok (fe, b1) =>
        match decode_ParameterError b1 with
        | .error e => .error e
        | .ok (pe, b2) =>
          if b2 ≠ [] then .error (.llrp "junk at end of message")
          else .ok (some { StatusCode := statusCode, ErrorDescription := errDesc,
                           FieldError := fe, ParameterError := pe }, data.drop length)

/-- The dict `decode_EPCData` builds (16.2.7.3.1); the source stores
`body[2:].encode('hex')`, modelled as the raw bytes. -/
structure EPCDataPar where
  EPCLengthBits : Nat
  EPC : List Nat
  deriving DecidableEq, Repr

/-- Source `decode_EPCData` (type 241). -/
def decode_EPCData (data : List Nat) : Except PyErr (Option EPCDataPar × List Nat) :=
  if data = [] then .ok (none, data) else
  match unpack_HH (data.take 4) with
  | none => .error .structError
  | some (t, length) =>
    if t &&& bitmask 10 ≠ 241 then .ok (none, data) else
    let body := pySlice data 4 length
    match unpack_H (body.take 2) with
    | none => .error .structError
    | some bits => .ok (some { EPCLengthBits := bits, EPC := body.drop 2 }, data.drop length)

/-- Source `decode_EPC96` (TV type 13, fixed 12-byte body, stored hex; modelled as
raw bytes). -/
def decode_EPC96 (data : List Nat) : Except PyErr (Option (List Nat) × List Nat) :=
  if data = [] then .ok (none, data) else
  match unpack_B (data.take 1) with
  | none => .error .structError
  | some b =>
    if b &&& bitmask 7 ≠ 13 then .ok (none, data) else
    .ok (some (pySlice data 1 13), data.drop 13)

/-- The dict a `C1G2*OpSpecResult` decode builds (16.2.7.3 trailer). -/
structure OpSpecResultPar where
  Result : Nat
  OpSpecID : Nat
  ReadDataWordCount : Option Nat := none
  ReadData : Option (List Nat) := none
  NumWordsWritten : Option Nat := none
  StatusWordCount : Option Nat := none
  PermalockStatus : Option (List Nat) := none
  deriving DecidableEq, Repr

/-- The nine `C1G2*OpSpecResult` type codes accepted by `decode_OpSpecResult`. -/
def c1g2OpSpecResultTypes : List Nat := [349, 350, 351, 360, 352, 353, 354, 361, 362]

/-- Source `decode_OpSpecResult`: handles any of the `C1G2*OpSpecResult` types. -/
def decode_OpSpecResult (data : List Nat) : Except PyErr (Option OpSpecResultPar × List Nat) :=
  if data = [] then .ok (none, data) else
  match unpack_HH (data.take 4) with
  | none => .error .structError
  | some (t, length) =>
    let msgtype := t &&& bitmask 10
    if ¬ c1g2OpSpecResultTypes.contains msgtype then .ok (none, data) else
    let body := pySlice data 4 length
    match unpack_BH (body.take 3) with
    | none => .error .structError
    | some (result, opSpecID) =>
      let body := body.drop 3
      let base : OpSpecResultPar := { Result := result, OpSpecID := opSpecID }
      if msgtype = 349 then
        match unpack_H (body.take 2) with
        | none => .error .structError
        | some wordcnt =>
          .ok (some { base with
                      ReadDataWordCount := some wordcnt,
                      ReadData := some (pySlice body 2 (2 + wordcnt * 2)) }, data.drop length)
      else if msgtype = 350 ∨ msgtype = 354 then
        match unpack_H (body.take 2) with
        | none => .error .structError
        | some nw => .ok (some { base with NumWordsWritten := some nw }, data.drop length)
      else if msgtype = 362 then
        match unpack_H (body.take 2) with
        | none => .error .structError
        | some wordcnt =>
          .ok (some { base with
                      StatusWordCount := some wordcnt,
                      PermalockStatus := some (pySlice body 2 (2 + wordcnt * 2)) },
               data.drop length)
      else .ok (some base, data.drop length)

/-- Modelled from the spec: `llrp_decoder.decode_tve_parameter` lives in the
`llrp_decoder` module, which is not under `src/`.  Per §4.3 and §6 it
consumes one TV-encoded value per call — high bit set, 7-bit type looked
up in a fixed table of per-type widths — returning `None` (scanning
stops) on a low high bit, an unknown type, or a short buffer.  The table
codes are the LLRP v1 TV assignments for the names §6 lists. -/
def tveParamTable : List (Nat × String × Nat) :=
  [(1, "AntennaID", 16), (2, "FirstSeenTimestampUTC", 64),
   (3, "FirstSeenTimestampUptime", 64), (4, "LastSeenTimestampUTC", 64),
   (5, "LastSeenTimestampUptime", 64), (6, "PeakRSSI", 8),
   (7, "ChannelIndex", 16), (8, "TagSeenCount", 16), (9, "ROSpecID", 32),
   (10, "InventoryParameterSpecID", 16), (11, "C1G2_CRC", 16),
   (12, "C1G2_PC", 16), (13, "EPC-96", 96), (14, "SpecIndex", 16),
   (16, "AccessSpecID", 32)]

/-- Modelled from the spec: the generic TV walker step (see `tveParamTable`).
Returns the decoded `(name, value)` pair and the number of bytes consumed. -/
def decode_tve_parameter (bs : List Nat) : Option ((String × Nat) × Nat) :=
  match bs with
  | [] => none
  | b :: rest =>
    if b &&& 128 = 0 then none else
    match tveParamTable.find? (fun p => p.1 = (b &&& bitmask 7)) with
    | none => none
    | some (_, name, bits) =>
      let nbytes := bits / 8
      if rest.length < nbytes then none
      else some ((name, readBE rest 0 nbytes), 1 + nbytes)

/-- A value of the flat `TagReportData` dict. -/
inductive TRVal where
  | epcData (e : EPCDataPar)
  | hexStr (bs : List Nat)
  | num (n : Nat)
  | opRes (r : OpSpecResultPar)
  deriving DecidableEq, Repr

/-- The flat dict `decode_TagReportData` builds. -/
abbrev TRDict := List (String × TRVal)

/-- Python dict assignment `d[k] = v` on the association-list model. -/
def dictSet {α : Type} (d : List (String × α)) (k : String) (v : α) :
    List (String × α) :=
  if d.any (fun p => p.1 = k) then d.map (fun p => if p.1 = k then (k, v) else p)
  else d ++ [(k, v)]

/-- The `while body:` TV-walking loop of `decode_TagReportData`, fuelled:
every step consumes at least one byte, so fuel = body length suffices. -/
def tvWalkF : Nat → TRDict → List Nat → TRDict × List Nat
  | 0, par, body => (par, body)
  | fuel + 1, par, body =>
    if body = [] then (par, body) else
    match decode_tve_parameter body with
    | some ((name, v), nbytes) => tvWalkF fuel (dictSet par name (.num v)) (body.drop nbytes)
    | none => (par, body)

/-- The TV-walking loop with its fuel instantiated. -/
def tvWalk (par : TRDict) (body : List Nat) : TRDict × List Nat :=
  tvWalkF body.length par body

/-- Source `decode_TagReportData` (type 240, 16.2.7.3): EPCData is probed first;
only if that returns `None` is TV EPC-96 tried; if both fail the decode
raises `LLRPError`. -/
def decode_TagReportData (data : List Nat) : Except PyErr (Option TRDict × List Nat) :=
  if data = [] then .ok (none, data) else
  match unpack_HH (data.take 4) with
  | none => .error .structError
  | some (t, length) =>
    if t &&& bitmask 10 ≠ 240 then .ok (none, data) else
    let body := pySlice data 4 length
    let epcStep : Except PyErr (TRDict × List Nat) :=
      match decode_EPCData body with
      | .error e => .error e
      | .ok (some e, b1) => .ok ([("EPCData", .epcData e)], b1)
      | .ok (none, b1) =>
        match decode_EPC96 b1 with
        | .error e => .error e
        | .ok (some epc, b2) => .ok ([("EPC-96", .hexStr epc)], b2)
        | .ok (none, _) => .error (.llrp "missing or invalid EPCData parameter")
    match epcStep with
    | .error e => .error e
    | .ok (par, b1) =>
      let walked := tvWalk par b1
      match decode_OpSpecResult walked.2 with
      | .error e => .error e
      | .ok (ret, _) =>
        let par3 := match ret with
          | some r => dictSet walked.1 "OpSpecResult" (.opRes r)
          | none => walked.1
        .ok (some par3, data.drop length)

/-- Source `decode_UTCTimestamp` (type 128): the dict holds one `Microseconds` key,
modelled as the bare value. -/
def decode_UTCTimestamp (data : List Nat) : Except PyErr (Option Nat × List Nat) :=
  if data = [] then .ok (none, data) else
  match unpack_HH (data.take 4) with
  | none => .error .structError
  | some (t, length) =>
    if t &&& bitmask 10 ≠ 128 then .ok (none, data) else
    match unpack_Q (pySlice data 4 length) with
    | none => .error .structError
    | some micros => .ok (some micros, data.drop length)

/-- Source `decode_Uptime` (type 129), identical to `decode_UTCTimestamp` but for
the type code. -/
def decode_Uptime (data : List Nat) : Except PyErr (Option Nat × List Nat) :=
  if data = [] then .ok (none, data) else
  match unpack_HH (data.take 4) with
  | none => .error .structError
  | some (t, length) =>
    if t &&& bitmask 10 ≠ 129 then .ok (none, data) else
    match unpack_Q (pySlice data 4 length) with
    | none => .error .structError
    | some micros => .ok (some micros, data.drop length)

/-- The dict `decode_AntennaEvent` builds (16.2.7.6.9). -/
structure AntennaEventPar where
  EventType : String
  AntennaID : Nat
  deriving DecidableEq, Repr

/-- Source `decode_AntennaEvent` (type 255). -/
def decode_AntennaEvent (data : List Nat) : Except PyErr (Option AntennaEventPar × List Nat) :=
  if data = [] then .ok (none, data) else
  match unpack_HH (data.take 4) with
  | none => .error .structError
  | some (t, length) =>
    if t &&& bitmask 10 ≠ 255 then .ok (none, data) else
    match unpack_BH (pySlice data 4 length) with
    | none => .error .structError
    | some (eventType, antennaId) =>
      .ok (some { EventType := if eventType ≠ 0 then "Connected" else "Disconnected",
                  AntennaID := antennaId }, data.drop length)

/-- Source `decode_ConnectionAttemptEvent` (type 256): the status code is
translated through `ConnEvent_Type2Name`, raising `KeyError` for an
unknown code; the dict holds one `Status` key. -/
def decode_ConnectionAttemptEvent (data : List Nat) :
    Except PyErr (Option String × List Nat) :=
  if data = [] then .ok (none, data) else
  match unpack_HH (data.take 4) with
  | none => .error .structError
  | some (t, length) =>
    if t &&& bitmask 10 ≠ 256 then .ok (none, data) else
    match unpack_H (pySlice data 4 length) with
    | none => .error .structError
    | some status =>
      match lookupNat ConnEvent_Type2Name status with
      | none => .error .keyError
      | some name => .ok (some name, data.drop length)

/-- Source `decode_ConnectionCloseEvent` (type 257): on a type match it returns the
EMPTY dict (modelled `some ()`), which is falsy in the caller's `if ret:`. -/
def decode_ConnectionCloseEvent (data : List Nat) : Except PyErr (Option Unit × List Nat) :=
  if data = [] then .ok (none, data) else
  match unpack_HH (data.take 4) with
  | none => .error .structError
  | some (t, length) =>
    if t &&& bitmask 10 ≠ 257 then .ok (none, data) else
    .ok (some (), data.drop length)

/-- The dict `decode_ReaderEventNotificationData` builds.  It never gains a
`ConnectionCloseEvent` key: that probe's dict is empty, hence falsy. -/
structure RENDataPar where
  UTCTimestamp : Option Nat := none
  Uptime : Option Nat := none
  ConnectionAttemptEvent : Option String := none
  AntennaEvent : Option AntennaEventPar := none
  deriving DecidableEq, Repr

/-- The `LLRPError` message raised when neither timestamp decodes. -/
def missingTimestampMsg : String := "missing UTCTimestamp and Uptime parameter"

/-- Source `decode_ReaderEventNotificationData` (16.2.7.6).  Note the source never
compares the leading type code against 246, and after a successful
UTCTimestamp decode it does NOT require Uptime to be absent. -/
def decode_ReaderEventNotificationData (data : List Nat) :
    Except PyErr (Option RENDataPar × List Nat) :=
  if data = [] then .ok (none, data) else
  match unpack_HH (data.take 4) with
  | none => .error .structError
  | some (_, length) =>
    let body := pySlice data 4 length
    let tsStep : Except PyErr (RENDataPar × List Nat) :=
      match decode_UTCTimestamp body with
      | .error e => .error e
      | .ok (some u, b1) => .ok ({ UTCTimestamp := some u }, b1)
      | .ok (none, b1) =>
        match decode_Uptime b1 with
        | .error e => .error e
        | .ok (some u, b2) => .ok ({ Uptime := some u }, b2)
        | .ok (none, _) => .error (.llrp missingTimestampMsg)
    match tsStep with
    | .error e => .error e
    | .ok (par, b2) =>
      match decode_ConnectionAttemptEvent b2 with
      | .error e => .error e
      | .ok (cae, b3) =>
        let par := { par with ConnectionAttemptEvent := cae }
        match decode_AntennaEvent b3 with
        | .error e => .error e
        | .ok (ae, b4) =>
          let par := { par with AntennaEvent := ae }
          match decode_ConnectionCloseEvent b4 with
          | .error e => .error e
          | .ok (_, b5) => .ok (some par, b5)

/-- The keys of `TLV_struct` in source insertion order — there is NO
`'ROSpecID'` entry (that parameter is registered in `TV_struct`), so
`TLV_struct['ROSpecID']` raises `KeyError`.  The paired number is the
entry's `'type'` (the pseudo-entry OpSpecResult carries -1). -/
def TLV_struct_types : List (String × Int) :=
  [("GET_READER_CAPABILITIES", 1), ("GET_READER_CAPABILITIES_RESPONSE", 11),
   ("ADD_ROSPEC", 20), ("ADD_ROSPEC_RESPONSE", 30),
   ("DELETE_ROSPEC", 21), ("DELETE_ROSPEC_RESPONSE", 31),
   ("START_ROSPEC", 22), ("START_ROSPEC_RESPONSE", 32),
   ("STOP_ROSPEC", 23), ("STOP_ROSPEC_RESPONSE", 33),
   ("ENABLE_ROSPEC", 24), ("ENABLE_ROSPEC_RESPONSE", 34),
   ("DISABLE_ROSPEC", 25), ("DISABLE_ROSPEC_RESPONSE", 35),
   ("RO_ACCESS_REPORT", 61), ("KEEPALIVE", 62), ("KEEPALIVE_ACK", 72),
   ("READER_EVENT_NOTIFICATION", 63), ("CLOSE_CONNECTION", 14),
   ("CLOSE_CONNECTION_RESPONSE", 4), ("UTCTimestamp", 128), ("Uptime", 129),
   ("RegulatoryCapabilities", 143), ("UHFBandCapabilities", 144),
   ("TransmitPowerLevelTableEntry", 145), ("FrequencyInformation", 146),
   ("FrequencyHopTable", 147), ("FixedFrequencyTable", 148),
   ("UHFRFModeTable", 328), ("UHFC1G2RFModeTableEntry", 329),
   ("RFSurveyFrequencyCapabilities", 365), ("LLRPCapabilities", 142),
   ("GeneralDeviceCapabilities", 137), ("MaximumReceiveSensitivity", 363),
   ("ReceiveSensitivityTableEntry", 139),
   ("PerAntennaReceiveSensitivityRange", 149), ("PerAntennaAirProtocol", 140),
   ("GPIOCapabilities", 141), ("ErrorMessage", 100), ("ROSpec", 177),
   ("ENABLE_EVENTS_AND_REPORTS", 64), ("GET_READER_CONFIG", 2),
   ("GET_READER_CONFIG_RESPONSE", 12), ("SET_READER_CONFIG", 3),
   ("SET_READER_CONFIG_RESPONSE", 13), ("AccessSpec", 207),
   ("LLRPConfigurationStateValue", 217), ("Identification", 218),
   ("GPOWriteData", 219), ("KeepaliveSpec", 220), ("AntennaProperties", 221),
   ("GPIPortCurrentState", 225), ("EventsAndReports", 226),
   ("ReaderEventNotificationSpec", 244), ("EventNotificationState", 245),
   ("ADD_ACCESSSPEC", 40), ("ADD_ACCESSSPEC_RESPONSE", 50),
   ("DELETE_ACCESSSPEC", 41), ("DELETE_ACCESSSPEC_RESPONSE", 51),
   ("ENABLE_ACCESSSPEC", 42), ("ENABLE_ACCESSSPEC_RESPONSE", 52),
   ("DISABLE_ACCESSSPEC", 43), ("DISABLE_ACCESSSPEC_RESPONSE", 53),
   ("AccessSpecStopTrigger", 208), ("AccessCommand", 209),
   ("C1G2TagSpec", 338), ("C1G2TargetTag", 339), ("C1G2Read", 341),
   ("C1G2Write", 342), ("C1G2Lock", 344), ("C1G2LockPayload", 345),
   ("C1G2BlockWrite", 347), ("AccessReportSpec", 239),
   ("ROBoundarySpec", 178), ("ROSpecStartTrigger", 179),
   ("ROSpecStopTrigger", 182), ("AISpec", 183), ("AISpecStopTrigger", 184),
   ("InventoryParameterSpec", 186), ("AntennaConfiguration", 222),
   ("RFReceiver", 223), ("RFTransmitter", 224),
   ("C1G2InventoryCommand", 330), ("C1G2Filter", 331),
   ("C1G2RFControl", 335), ("C1G2SingulationControl", 336),
   ("ROReportSpec", 237), ("TagReportContentSelector", 238),
   ("TagReportData", 240), ("OpSpecResult", -1),
   ("C1G2ReadOpSpecResult", 349), ("C1G2WriteOpSpecResult", 350),
   ("C1G2KillOpSpecResult", 351), ("C1G2RecommissionOpSpecResult", 360),
   ("C1G2LockOpSpecResult", 352), ("C1G2BlockEraseOpSpecResult", 353),
   ("C1G2BlockWriteOpSpecResult", 354),
   ("C1G2BlockPermalockOpSpecResult", 361),
   ("C1G2GetBlockPermalockStatusOpSpecResult", 362), ("EPCData", 241),
   ("ReaderEventNotificationData", 246), ("AntennaEvent", 255),
   ("ConnectionAttemptEvent", 256), ("ConnectionCloseEvent", 257),
   ("LLRPStatus", 287), ("FieldError", 288), ("ParameterError", 289)]

/-- Source `TLV_struct[name]['type']` as a dict read (`none` = `KeyError`). -/
def tlvTypeOfName (name : String) : Option Int :=
  (TLV_struct_types.find? (fun p => p.1 = name)).map (·.2)

/-- Source `decode_ROSpecID` (16.2.7.3.3, TV type 9): its expected-type comparison
reads `TLV_struct['ROSpecID']['type']`, but ROSpecID is registered only
in `TV_struct`, so every execution that reaches the comparison raises
`KeyError`. -/
def decode_ROSpecID (data : List Nat) : Except PyErr (Option Nat × List Nat) :=
  if data = [] then .ok (none, data) else
  match unpack_B (data.take 1) with
  | none => .error .structError
  | some b =>
    let msgtype := b &&& bitmask 7
    match tlvTypeOfName "ROSpecID" with
    | none => .error .keyError
    | some expected =>
      if (msgtype : Int) ≠ expected then .ok (none, data) else
      match unpack_I (pySlice data 1 5) with
      | none => .error .structError
      | some v => .ok (some v, data.drop 5)

/-- Source `decode_TagReportContentSelector` (16.2.7.1): builds the ten `Enable*`
keys (ints 0/1) in registry order; any `Length ≠ 6` raises the
"not implemented" `Exception`. -/
def decode_TagReportContentSelector (data : List Nat) :
    Except PyErr (SelectorDict × List Nat) :=
  match unpack_HHH (data.take 6) with
  | none => .error .structError
  | some (_, length, bits) =>
    if length ≠ 6 then
      .error (.exn "AirProtocolSpecificEPCMemorySelectorParameter is not implemented yet")
    else
      .ok ([("EnableROSpecID", .ofNat ((bits >>> 15) &&& 1)),
            ("EnableSpecIndex", .ofNat ((bits >>> 14) &&& 1)),
            ("EnableInventoryParameterSpecID", .ofNat ((bits >>> 13) &&& 1)),
            ("EnableAntennaID", .ofNat ((bits >>> 12) &&& 1)),
            ("EnableChannelIndex", .ofNat ((bits >>> 11) &&& 1)),
            ("EnablePeakRRSI", .ofNat ((bits >>> 10) &&& 1)),
            ("EnableFirstSeenTimestamp", .ofNat ((bits >>> 9) &&& 1)),
            ("EnableLastSeenTimestamp", .ofNat ((bits >>> 8) &&& 1)),
            ("EnableTagSeenCount", .ofNat ((bits >>> 7) &&& 1)),
            ("EnableAccessSpecID", .ofNat ((bits >>> 6) &&& 1))], data.drop 6)

/-- Source `decode_ROReportSpec` (16.2.7.1): reads `!HHBH` from the first 7 bytes
(no type check, no truncation to `Length`), stores the RAW numeric
trigger code under `ROReportTrigger`, and delegates the rest to
`decode_TagReportContentSelector`. -/
def decode_ROReportSpec (data : List Nat) : Except PyErr (ROReportSpecPar × List Nat) :=
  match unpack_HHBH (data.take 7) with
  | none => .error .structError
  | some (t, _, trig, n) =>
    match decode_TagReportContentSelector (data.drop 7) with
    | .error e => .error e
    | .ok (sel, body) =>
      .ok ({ TypeField := some t, N := n, ROReportTrigger := .num trig,
             TagReportContentSelector := sel }, body)

/-! ### The high-level ROSpec builder (`class LLRPROSpec`). -/

/-- The reader-mode dict the builder reads from `llrpcli.reader_mode`. -/
structure ReaderMode where
  ModeIdentifier : Nat
  MaxTari : Nat
  deriving DecidableEq, Repr

/-- The builder's default `tagReportContentSelector` dict, in source order. -/
def defaultTagContentSelector : SelectorDict :=
  [("EnableROSpecID", .ofBool false), ("EnableSpecIndex", .ofBool false),
   ("EnableInventoryParameterSpecID", .ofBool false),
   ("EnableAntennaID", .ofBool true), ("EnableChannelIndex", .ofBool false),
   ("EnablePeakRRSI", .ofBool true),
   ("EnableFirstSeenTimestamp", .ofBool false),
   ("EnableLastSeenTimestamp", .ofBool true),
   ("EnableTagSeenCount", .ofBool true), ("EnableAccessSpecID", .ofBool false)]

/-- Source `LLRPROSpec.__init__`: sanity checks on `msgid`, `priority` and `state`
(note there is NO check on `session`), then the fully populated
`self['ROSpec']` dict.  `llrpcli.reader_mode` is passed as `readerMode`;
the whitespace-joined `AntennaIDs` string is modelled as the id list
(see `AISpecPar`); `duration_sec`/`report_every_n_tags` default to
`None` (`none`), the selector override dict to empty. -/
def LLRPROSpec_init (readerMode : ReaderMode) (msgid priority : Int)
    (state : String) (antennas : List Nat) (txPower : Nat)
    (durationSec : Option Nat) (reportEveryNTags : Option Nat)
    (tagContentSelector : SelectorDict) (session : Nat) (tagPopulation : Nat) :
    Except PyErr ROSpecPar :=
  if msgid ≤ 0 then
    .error (.llrp "invalid ROSpec message ID (need >0)")
  else if priority < 0 ∨ priority > 7 then
    .error (.llrp "invalid ROSpec priority (need [0-7])")
  else if (lookupStr ROSpecState_Name2Type state).isNone then
    .error (.llrp "invalid ROSpec state (need [Disabled,Inactive,Active])")
  else
    let selector := tagContentSelector.foldl
      (fun d p => dictSet d p.1 p.2) defaultTagContentSelector
    .ok { ROSpecID := msgid.toNat,
          Priority := priority.toNat,
          CurrentState := state,
          ROBoundarySpec :=
            { ROSpecStartTrigger := { ROSpecStartTriggerType := "Immediate" },
              ROSpecStopTrigger :=
                match durationSec with
                | none => { ROSpecStopTriggerType := "Null", DurationTriggerValue := 0 }
                | some d => { ROSpecStopTriggerType := "Duration",
                              DurationTriggerValue := d * 1000 } },
          AISpec :=
            { AntennaIDs := antennas,
              AISpecStopTrigger := { AISpecStopTriggerType := "Duration",
                                     DurationTriggerValue := 500 },
              InventoryParameterSpec :=
                { InventoryParameterSpecID := 1,
                  ProtocolID := 1,
                  AntennaConfiguration := antennas.map (fun antid =>
                    { AntennaID := antid,
                      RFReceiver := none,
                      RFTransmitter := some { HopTableId := 1, ChannelIndex := 1,
                                              TransmitPower := txPower },
                      C1G2InventoryCommand := some
                        { TagInventoryStateAware := false,
                          C1G2Filter := none,
                          C1G2RFControl := some
                            { ModeIndex := readerMode.ModeIdentifier,
                              Tari := readerMode.MaxTari },
                          C1G2SingulationControl := some
                            { Session := session,
                              TagPopulation := tagPopulation,
                              TagTransitTime := 0 } } }) } },
          ROReportSpec :=
            { N := match reportEveryNTags with
                   | none => 1
                   | some k => k,
              ROReportTrigger := .str "Upon_N_Tags_Or_End_Of_AISpec",
              TagReportContentSelector := selector } }

/-! ### Concrete inputs used by the evaluation theorems below. -/

/-- An ROSpec value with `ROSpecID = 1024` (the smallest value the encoder's
10-bit mask zeroes out) and `Priority = 200`. -/
def c4par : ROSpecPar :=
  { ROSpecID := 1024, Priority := 200, CurrentState := "Disabled",
    ROBoundarySpec :=
      { ROSpecStartTrigger := { ROSpecStartTriggerType := "Immediate" },
        ROSpecStopTrigger := { ROSpecStopTriggerType := "Null",
                               DurationTriggerValue := 0 } },
    AISpec :=
      { AntennaIDs := [1],
        AISpecStopTrigger := { AISpecStopTriggerType := "Duration",
                               DurationTriggerValue := 500 },
        InventoryParameterSpec := { InventoryParameterSpecID := 1,
                                    ProtocolID := 1,
                                    AntennaConfiguration := [] } },
    ROReportSpec := { N := 1,
                      ROReportTrigger := .str "Upon_N_Tags_Or_End_Of_AISpec",
                      TagReportContentSelector := [] } }

/-- A builder-style ROReportSpec value (named trigger, empty selector dict). -/
def c3v0 : ROReportSpecPar :=
  { N := 1, ROReportTrigger := .str "Upon_N_Tags_Or_End_Of_AISpec",
    TagReportContentSelector := [] }

/-- Source `encode_ROReportSpec c3v0`. -/
def c3bytes : List Nat := [0, 237, 0, 13, 1, 0, 1, 0, 238, 0, 6, 0, 0]

/-- What `decode_ROReportSpec` yields on `c3bytes`: the trigger comes back
as the RAW int 1, not the name the encoder expects. -/
def c3v1 : ROReportSpecPar :=
  { TypeField := some 237, N := 1, ROReportTrigger := .num 1,
    TagReportContentSelector :=
      [("EnableROSpecID", .ofNat 0), ("EnableSpecIndex", .ofNat 0),
       ("EnableInventoryParameterSpecID", .ofNat 0),
       ("EnableAntennaID", .ofNat 0), ("EnableChannelIndex", .ofNat 0),
       ("EnablePeakRRSI", .ofNat 0), ("EnableFirstSeenTimestamp", .ofNat 0),
       ("EnableLastSeenTimestamp", .ofNat 0), ("EnableTagSeenCount", .ofNat 0),
       ("EnableAccessSpecID", .ofNat 0)] }

/-- First target tag of the C7 failing input (all-zero fields). -/
def c7t1 : C1G2TargetTagPar :=
  { MB := 0, M := false, Pointer := 0, MaskBitCount := 0, TagMask := [],
    DataBitCount := 0, TagData := [] }

/-- Second target tag of the C7 failing input (distinguished by `MB = 1`). -/
def c7t2 : C1G2TargetTagPar := { c7t1 with MB := 1 }

/-- A ReaderEventNotificationData parameter whose body carries BOTH a
UTCTimestamp (micros 0) and an Uptime (micros 7) child. -/
def c6data : List Nat :=
  [0, 246, 0, 28] ++ ([0, 128, 0, 12] ++ [0, 0, 0, 0, 0, 0, 0, 0]) ++
    ([0, 129, 0, 12] ++ [0, 0, 0, 0, 0, 0, 0, 7])

/-- A TagReportData parameter with an empty body: both EPC probes miss. -/
def c5miss : List Nat := [0, 240, 0, 4]

/-- A TagReportData parameter whose body is a single TV EPC-96 (type byte
`0x8d`, 12 bytes of EPC). -/
def c5data : List Nat :=
  [0, 240, 0, 17, 141] ++ [0, 0, 0, 0, 0, 0, 0, 0, 0, 0, 18, 52]

/-- The dict `decode_TagReportData` builds on `c5data`. -/
def c5par : TRDict := [("EPC-96", .hexStr [0, 0, 0, 0, 0, 0, 0, 0, 0, 0, 18, 52])]

/-- The reader mode fed to the builder in the C8 evaluations. -/
def c8mode : ReaderMode := { ModeIdentifier := 1000, MaxTari := 6250 }

/-- The fully populated ROSpec the builder returns for
`(msgid 1, priority 0, Disabled, antennas [1], tx_power 91, no duration,
no report-N, no selector override, session 4, population 4)` — session 4
is OUTSIDE [0..3] yet nothing is raised. -/
def c8value : ROSpecPar :=
  { ROSpecID := 1, Priority := 0, CurrentState := "Disabled",
    ROBoundarySpec :=
      { ROSpecStartTrigger := { ROSpecStartTriggerType := "Immediate" },
        ROSpecStopTrigger := { ROSpecStopTriggerType := "Null",
                               DurationTriggerValue := 0 } },
    AISpec :=
      { AntennaIDs := [1],
        AISpecStopTrigger := { AISpecStopTriggerType := "Duration",
                               DurationTriggerValue := 500 },
        InventoryParameterSpec :=
          { InventoryParameterSpecID := 1, ProtocolID := 1,
            AntennaConfiguration :=
              [{ AntennaID := 1,
                 RFReceiver := none,
                 RFTransmitter := some { HopTableId := 1, ChannelIndex := 1,
                                         TransmitPower := 91 },
                 C1G2InventoryCommand := some
                   { TagInventoryStateAware := false,
                     C1G2Filter := none,
                     C1G2RFControl := some { ModeIndex := 1000, Tari := 6250 },
                     C1G2SingulationControl := some
                       { Session := 4, TagPopulation := 4,
                         TagTransitTime := 0 } } }] } },
    ROReportSpec := { N := 1,
                      ROReportTrigger := .str "Upon_N_Tags_Or_End_Of_AISpec",
                      TagReportContentSelector := defaultTagContentSelector } }

/-! ### Theorems. -/

theorem pack16_eq_some {v : Nat} {bs : List Nat} :
    pack16 v = some bs ↔ v ≤ 65535 ∧ bs = [v / 256, v % 256] := by
  unfold pack16
  split
  · simp only [Option.some.injEq]
    constructor
    · intro h
      exact ⟨by assumption, h.symm⟩
    · intro h
      exact h.2.symm
  · simp only [reduceCtorEq, false_iff, not_and]
    intro h
    omega

theorem tlvEncode_shape {t : Nat} {eo bo : Option (List Nat)} {bs : List Nat}
    (h : tlvEncode t eo bo = some bs) :
    ∃ e b, t ≤ 65535 ∧ e.length + b.length + 4 ≤ 65535 ∧
      bs = [t / 256, t % 256] ++
        [(b.length + (4 + e.length)) / 256, (b.length + (4 + e.length)) % 256] ++
        e ++ b := by
  simp only [tlvEncode, bind, Option.bind_eq_some, pure] at h
  obtain ⟨e, _, b, _, tb, htb, lb, hlb, hbs⟩ := h
  rw [pack16_eq_some] at htb hlb
  obtain ⟨ht, rfl⟩ := htb
  obtain ⟨hL, rfl⟩ := hlb
  exact ⟨e, b, ht, by omega, (Option.some_inj.mp hbs).symm⟩

theorem tlvEncode_length {t : Nat} {eo bo : Option (List Nat)} {bs : List Nat}
    (h : tlvEncode t eo bo = some bs) :
    read16at bs 2 = bs.length ∧ 4 ≤ bs.length := by
  obtain ⟨e, b, -, hL, rfl⟩ := tlvEncode_shape h
  have hdm := Nat.div_add_mod (b.length + (4 + e.length)) 256
  have hmod := Nat.mod_lt (b.length + (4 + e.length)) (show 0 < 256 by omega)
  have e1 : read16at ([t / 256, t % 256] ++
      [(b.length + (4 + e.length)) / 256, (b.length + (4 + e.length)) % 256] ++
      e ++ b) 2 =
      256 * ((b.length + (4 + e.length)) / 256) + (b.length + (4 + e.length)) % 256 := rfl
  have e2 : (([t / 256, t % 256] ++
      [(b.length + (4 + e.length)) / 256, (b.length + (4 + e.length)) % 256] ++
      e ++ b)).length = 4 + e.length + b.length := by
    simp only [List.length_append, List.length_cons, List.length_nil]
  rw [e1, e2]
  omega

theorem tlvEncode_type {t : Nat} {eo bo : Option (List Nat)} {bs : List Nat}
    (h : tlvEncode t eo bo = some bs) : read16at bs 0 = t := by
  obtain ⟨e, b, ht, -, rfl⟩ := tlvEncode_shape h
  have e1 : read16at ([t / 256, t % 256] ++
      [(b.length + (4 + e.length)) / 256, (b.length + (4 + e.length)) % 256] ++
      e ++ b) 0 = 256 * (t / 256) + t % 256 := rfl
  rw [e1]
  have := Nat.div_add_mod t 256
  omega

/-- C1.  For every TLV parameter encoder in the registry
(`tlvParamEncode`) and every structured value it accepts, the 16-bit
length field at offset 2 of the emitted parameter equals the total
number of bytes emitted (header plus body), hence is at least 4. -/
theorem C1_tlv_length_invariant (v : TLVEncInput) (bs : List Nat)
    (h : tlvParamEncode v = some bs) :
    read16at bs 2 = bs.length ∧ 4 ≤ bs.length := by
  cases v <;>
    simp only [tlvParamEncode, encode_ROSpec, encode_ROBoundarySpec,
      encode_ROSpecStartTrigger, encode_ROSpecStopTrigger, encode_AISpec,
      encode_AISpecStopTrigger, encode_InventoryParameterSpec,
      encode_AntennaConfiguration, encode_RFReceiver, encode_RFTransmitter,
      encode_C1G2InventoryCommand, encode_C1G2RFControl,
      encode_C1G2SingulationControl, encode_ROReportSpec,
      encode_TagReportContentSelector, encode_AccessSpec,
      encode_AccessSpecStopTrigger, encode_AccessCommand, encode_C1G2TagSpec,
      encode_C1G2TargetTag, encode_C1G2Read, encode_C1G2Write,
      encode_C1G2Lock, encode_C1G2LockPayload, encode_AccessReportSpec] at h
  case c1g2Filter => exact absurd h (by simp)
  all_goals exact tlvEncode_length h

/-- C1 witness: the registry encoder for RFReceiver at sensitivity 5. -/
theorem C1_tlv_length_invariant_witness :
    read16at [0, 223, 0, 6, 0, 5] 2 = [0, 223, 0, 6, 0, 5].length ∧
      4 ≤ [0, 223, 0, 6, 0, 5].length :=
  C1_tlv_length_invariant (.rfReceiver { ReceiverSensitivity := 5 })
    [0, 223, 0, 6, 0, 5] (by rfl)

/-- C9.  The registry encoder bound to the name C1G2BlockWrite IS
`encode_C1G2Write`: it agrees with the C1G2Write registry encoder on
every value, and every parameter it emits carries type code 342 — never
the C1G2BlockWrite code 347. -/
theorem C9_blockwrite_registry_alias :
    (∀ v : C1G2WritePar,
        tlvParamEncode (.c1g2BlockWrite v) = tlvParamEncode (.c1g2Write v)) ∧
    (∀ (v : C1G2WritePar) (bs : List Nat),
        tlvParamEncode (.c1g2BlockWrite v) = some bs →
          read16at bs 0 &&& bitmask 10 = 342 ∧
            read16at bs 0 &&& bitmask 10 ≠ 347) := by
  refine ⟨fun v => rfl, fun v bs h => ?_⟩
  simp only [tlvParamEncode, encode_C1G2Write] at h
  have := tlvEncode_type h
  rw [this]
  decide

/-- C9 witness: a concrete one-word write through the registry name
C1G2BlockWrite. -/
theorem C9_blockwrite_registry_alias_witness :
    read16at [1, 86, 0, 17, 0, 1, 0, 0, 0, 0, 0, 0, 2, 0, 1, 171, 205] 0 &&&
        bitmask 10 = 342 ∧
      read16at [1, 86, 0, 17, 0, 1, 0, 0, 0, 0, 0, 0, 2, 0, 1, 171, 205] 0 &&&
        bitmask 10 ≠ 347 :=
  C9_blockwrite_registry_alias.2
    { OpSpecID := 1, AccessPassword := 0, MB := 0, WordPtr := 2,
      WriteDataWordCount := 1, WriteData := [171, 205] }
    [1, 86, 0, 17, 0, 1, 0, 0, 0, 0, 0, 0, 2, 0, 1, 171, 205] (by rfl)

/-- C4 (code bug).  `encode_ROSpec` masks the ROSpecID with `BITMASK(10)`
before packing it into the 32-bit field: on input ROSpecID = 1024 the
emitted 32-bit field (offset 4) is 0, not 1024, while the priority byte
(offset 8) is correctly the input 200 masked to 7 bits (72). -/
theorem C4_rospecid_masked :
    c4par.ROSpecID = 1024 ∧
      (encode_ROSpec c4par).map (fun bs => read32at bs 4) = some 0 ∧
      (encode_ROSpec c4par).map (fun bs => bs.getD 8 0) =
        some (c4par.Priority &&& bitmask 7) := by
  refine ⟨rfl, ?_, ?_⟩ <;> rfl

/-- C7 (code bug).  `encode_C1G2TagSpec` on the two-element target list
`[c7t1, c7t2]` emits a body holding ONLY the encoding of the last
element `c7t2` (11 bytes, total length field 15), not the concatenation
of both encodings (which would make the length field 26). -/
theorem C7_tagspec_last_only :
    encode_C1G2TargetTag c7t1 = some [1, 83, 0, 11, 0, 0, 0, 0, 0, 0, 0] ∧
      encode_C1G2TargetTag c7t2 = some [1, 83, 0, 11, 64, 0, 0, 0, 0, 0, 0] ∧
      encode_C1G2TagSpec { C1G2TargetTag := .listOf [c7t1, c7t2] } =
        some [1, 82, 0, 15, 1, 83, 0, 11, 64, 0, 0, 0, 0, 0, 0] := by
  refine ⟨?_, ?_, ?_⟩ <;> rfl

/-- C3 (code bug).  Encoding the ROReportSpec value `c3v0` and decoding the
result succeeds, but the decoded value carries the RAW numeric trigger
(`num 1`), which `encode_ROReportSpec` — whose trigger lookup expects a
name string — cannot re-encode: the round trip dies with `KeyError`
instead of reproducing `c3bytes`. -/
theorem C3_roreportspec_roundtrip_broken :
    encode_ROReportSpec c3v0 = some c3bytes ∧
      decode_ROReportSpec c3bytes = .ok (c3v1, []) ∧
      c3v1.ROReportTrigger = .num 1 ∧
      encode_ROReportSpec c3v1 = none := by
  refine ⟨?_, ?_, ?_, ?_⟩ <;> rfl

/-- C2.  TLV probe discipline: on any buffer holding at least a 4-byte TLV
header whose 10-bit type differs from the decoder's expected registry
type, `decode_LLRPStatus` (expects 287) and `decode_TagReportData`
(expects 240) return `(None, B)` with the original buffer unconsumed. -/
theorem C2_tlv_probe_nonconsuming (B : List Nat) (h4 : 4 ≤ B.length) :
    (read16at B 0 &&& bitmask 10 ≠ 287 → decode_LLRPStatus B = .ok (none, B)) ∧
    (read16at B 0 &&& bitmask 10 ≠ 240 → decode_TagReportData B = .ok (none, B)) := by
  match B, h4 with
  | a :: b :: c :: d :: rest, _ =>
    have hr : read16at (a :: b :: c :: d :: rest) 0 = 256 * a + b := rfl
    have hu : unpack_HH [a, b, c, d] = some (256 * a + b, 256 * c + d) := rfl
    constructor
    · intro hne
      rw [hr] at hne
      simp [decode_LLRPStatus, hu, hne]
    · intro hne
      rw [hr] at hne
      simp [decode_TagReportData, hu, hne]

/-- C2 witness: the all-zero 4-byte header (type 0) probes as absent under
both decoders. -/
theorem C2_tlv_probe_nonconsuming_witness :
    decode_LLRPStatus [0, 0, 0, 0] = .ok (none, [0, 0, 0, 0]) ∧
      decode_TagReportData [0, 0, 0, 0] = .ok (none, [0, 0, 0, 0]) :=
  ⟨(C2_tlv_probe_nonconsuming [0, 0, 0, 0] (by decide)).1 (by decide),
   (C2_tlv_probe_nonconsuming [0, 0, 0, 0] (by decide)).2 (by decide)⟩

/-- C10.  `decode_ROSpecID` reads `TLV_struct['ROSpecID']['type']`, but
`TLV_struct` has no such key: every non-empty buffer raises `KeyError`
before the function can return, and only the empty buffer yields
`(None, input)`. -/
theorem C10_rospecid_decoder_keyerror :
    decode_ROSpecID [] = .ok (none, []) ∧
      ∀ data : List Nat, data ≠ [] → decode_ROSpecID data = .error .keyError := by
  refine ⟨rfl, fun data hne => ?_⟩
  match data, hne with
  | b :: rest, _ =>
    have hu : unpack_B [b] = some b := rfl
    have hk : tlvTypeOfName "ROSpecID" = none := by rfl
    simp [decode_ROSpecID, hu, hk]

/-- C10 witness: the singleton buffer `[1]` raises `KeyError`. -/
theorem C10_rospecid_decoder_keyerror_witness :
    decode_ROSpecID [1] = .error .keyError :=
  C10_rospecid_decoder_keyerror.2 [1] (by decide)

theorem any_key_dictSet (pred : String → Bool) {α : Type}
    (d : List (String × α)) (k : String) (v : α)
    (h : d.any (fun p => pred p.1) = true) :
    (dictSet d k v).any (fun p => pred p.1) = true := by
  unfold dictSet
  split
  · rw [List.any_map]
    rw [List.any_eq_true] at h ⊢
    obtain ⟨x, hx, hpred⟩ := h
    refine ⟨x, hx, ?_⟩
    simp only [Function.comp_apply]
    by_cases hk : x.1 = k
    · simp only [hk, if_pos rfl]
      simpa [hk] using hpred
    · simp only [if_neg hk]
      exact hpred
  · rw [List.any_append, h, Bool.true_or]

theorem any_key_tvWalkF (pred : String → Bool) :
    ∀ (fuel : Nat) (d : TRDict) (body : List Nat),
      d.any (fun p => pred p.1) = true →
      ((tvWalkF fuel d body).1).any (fun p => pred p.1) = true := by
  intro fuel
  induction fuel with
  | zero => intro d body h; exact h
  | succ n ih =>
    intro d body h
    unfold tvWalkF
    split
    · exact h
    · split
      · exact ih _ _ (any_key_dictSet pred _ _ _ h)
      · exact h

/-- C5.  `decode_TagReportData` (spec-modelled TV walker, see
`decode_tve_parameter`): (1) any tag-report value it returns carries an
EPC field (`EPCData` or `EPC-96`); (2) when the EPCData probe on the
body returns `None`, and so does the TV EPC-96 probe, the decode raises
`LLRPError` (MissingEPC); (3) when the EPCData probe succeeds, any value
it returns carries the `EPCData` key (EPC-96 is not consulted). -/
theorem C5_tagreport_epc_required :
    (∀ (data : List Nat) (par : TRDict) (rest : List Nat),
        decode_TagReportData data = .ok (some par, rest) →
        par.any (fun p => p.1 = "EPCData" || p.1 = "EPC-96") = true) ∧
    (∀ (data : List Nat) (t L : Nat), data ≠ [] →
        unpack_HH (data.take 4) = some (t, L) → t &&& bitmask 10 = 240 →
        decode_EPCData (pySlice data 4 L) = .ok (none, pySlice data 4 L) →
        decode_EPC96 (pySlice data 4 L) = .ok (none, pySlice data 4 L) →
        decode_TagReportData data =
          .error (.llrp "missing or invalid EPCData parameter")) ∧
    (∀ (data : List Nat) (t L : Nat) (e : EPCDataPar) (b1 : List Nat)
        (par : TRDict) (rest : List Nat), data ≠ [] →
        unpack_HH (data.take 4) = some (t, L) → t &&& bitmask 10 = 240 →
        decode_EPCData (pySlice data 4 L) = .ok (some e, b1) →
        decode_TagReportData data = .ok (some par, rest) →
        par.any (fun p => p.1 = "EPCData") = true) := by
  refine ⟨?_, ?_, ?_⟩
  · intro data par rest h
    by_cases hne : data = []
    · rw [hne] at h
      simp [decode_TagReportData] at h
    · rcases hu : unpack_HH (data.take 4) with _ | ⟨t, L⟩
      · simp only [decode_TagReportData, if_neg hne, hu] at h
        exact absurd h (by simp)
      · simp only [decode_TagReportData, if_neg hne, hu] at h
        by_cases hty : t &&& bitmask 10 = 240
        · rw [if_neg (not_not_intro hty)] at h
          rcases hepc : decode_EPCData (pySlice data 4 L) with eE | ⟨o, b1⟩
          · simp only [hepc] at h
            exact absurd h (by simp)
          · simp only [hepc] at h
            cases o with
            | some e =>
              rcases hop : decode_OpSpecResult (tvWalk [("EPCData", .epcData e)] b1).2
                with eE | ⟨ret, b3⟩
              · simp only [hop] at h
                exact absurd h (by simp)
              · simp only [hop] at h
                have hwalk := any_key_tvWalkF
                  (fun s => s = "EPCData" || s = "EPC-96") b1.length
                  [("EPCData", .epcData e)] b1 (by rfl)
                cases ret with
                | some r =>
                  simp only [Except.ok.injEq, Prod.mk.injEq, Option.some.injEq] at h
                  obtain ⟨h1, h2⟩ := h
                  subst h1
                  exact any_key_dictSet
                    (fun s => s = "EPCData" || s = "EPC-96") _ _ _ hwalk
                | none =>
                  simp only [Except.ok.injEq, Prod.mk.injEq, Option.some.injEq] at h
                  obtain ⟨h1, h2⟩ := h
                  subst h1
                  exact hwalk
            | none =>
              rcases hepc96 : decode_EPC96 b1 with eE | ⟨o2, b2⟩
              · simp only [hepc96] at h
                exact absurd h (by simp)
              · simp only [hepc96] at h
                cases o2 with
                | some epc =>
                  rcases hop : decode_OpSpecResult (tvWalk [("EPC-96", .hexStr epc)] b2).2
                    with eE | ⟨ret, b3⟩
                  · simp only [hop] at h
                    exact absurd h (by simp)
                  · simp only [hop] at h
                    have hwalk := any_key_tvWalkF
                      (fun s => s = "EPCData" || s = "EPC-96") b2.length
                      [("EPC-96", .hexStr epc)] b2 (by rfl)
                    cases ret with
                    | some r =>
                      simp only [Except.ok.injEq, Prod.mk.injEq, Option.some.injEq] at h
                      obtain ⟨h1, h2⟩ := h
                      subst h1
                      exact any_key_dictSet
                        (fun s => s = "EPCData" || s = "EPC-96") _ _ _ hwalk
                    | none =>
                      simp only [Except.ok.injEq, Prod.mk.injEq, Option.some.injEq] at h
                      obtain ⟨h1, h2⟩ := h
                      subst h1
                      exact hwalk
                | none => exact absurd h (by simp)
        · rw [if_pos hty] at h
          exact absurd h (by simp)
  · intro data t L hne hu hty hepc hepc96
    simp only [decode_TagReportData, if_neg hne, hu, hty, hepc, hepc96]
    simp
  · intro data t L e b1 par rest hne hu hty hepc h
    simp only [decode_TagReportData, if_neg hne, hu, hty, hepc] at h
    rw [if_neg (by simp)] at h
    rcases hop : decode_OpSpecResult (tvWalk [("EPCData", .epcData e)] b1).2
      with eE | ⟨ret, b3⟩
    · simp only [hop] at h
      exact absurd h (by simp)
    · simp only [hop] at h
      have hwalk := any_key_tvWalkF (fun s => s = "EPCData") b1.length
        [("EPCData", .epcData e)] b1 (by rfl)
      cases ret with
      | some r =>
        simp only [Except.ok.injEq, Prod.mk.injEq, Option.some.injEq] at h
        obtain ⟨h1, h2⟩ := h
        subst h1
        exact any_key_dictSet (fun s => s = "EPCData") _ _ _ hwalk
      | none =>
        simp only [Except.ok.injEq, Prod.mk.injEq, Option.some.injEq] at h
        obtain ⟨h1, h2⟩ := h
        subst h1
        exact hwalk

/-- C5 witness: part (2) at the empty-body TagReportData `c5miss`, and
part (1) at the EPC-96 report `c5data`. -/
theorem C5_tagreport_epc_required_witness :
    decode_TagReportData c5miss =
        .error (.llrp "missing or invalid EPCData parameter") ∧
      c5par.any (fun p => p.1 = "EPCData" || p.1 = "EPC-96") = true :=
  ⟨C5_tagreport_epc_required.2.1 c5miss 240 4 (by decide) (by rfl) (by decide)
      (by rfl) (by rfl),
   C5_tagreport_epc_required.1 c5data c5par [] (by rfl)⟩

theorem decode_UTCTimestamp_none_id {d r : List Nat}
    (h : decode_UTCTimestamp d = .ok (none, r)) : r = d := by
  unfold decode_UTCTimestamp at h
  split at h
  · injection h with h1
    injection h1 with h2 h3
    exact h3.symm
  · split at h
    · exact absurd h (by simp)
    · split at h
      · injection h with h1
        injection h1 with h2 h3
        exact h3.symm
      · split at h
        · exact absurd h (by simp)
        · exact absurd h (by simp)

theorem decode_Uptime_none_id {d r : List Nat}
    (h : decode_Uptime d = .ok (none, r)) : r = d := by
  unfold decode_Uptime at h
  split at h
  · injection h with h1
    injection h1 with h2 h3
    exact h3.symm
  · split at h
    · exact absurd h (by simp)
    · split at h
      · injection h with h1
        injection h1 with h2 h3
        exact h3.symm
      · split at h
        · exact absurd h (by simp)
        · exact absurd h (by simp)

theorem decode_UTCTimestamp_error_shape {d : List Nat} {e : PyErr}
    (h : decode_UTCTimestamp d = .error e) : e = .structError := by
  unfold decode_UTCTimestamp at h
  split at h
  · exact absurd h (by simp)
  · split at h
    · injection h with h1
      exact h1.symm
    · split at h
      · exact absurd h (by simp)
      · split at h
        · injection h with h1
          exact h1.symm
        · exact absurd h (by simp)

theorem decode_Uptime_error_shape {d : List Nat} {e : PyErr}
    (h : decode_Uptime d = .error e) : e = .structError := by
  unfold decode_Uptime at h
  split at h
  · exact absurd h (by simp)
  · split at h
    · injection h with h1
      exact h1.symm
    · split at h
      · exact absurd h (by simp)
      · split at h
        · injection h with h1
          exact h1.symm
        · exact absurd h (by simp)

theorem decode_ConnectionAttemptEvent_error_shape {d : List Nat} {e : PyErr}
    (h : decode_ConnectionAttemptEvent d = .error e) :
    e = .structError ∨ e = .keyError := by
  unfold decode_ConnectionAttemptEvent at h
  split at h
  · exact absurd h (by simp)
  · split at h
    · injection h with h1
      exact .inl h1.symm
    · split at h
      · exact absurd h (by simp)
      · split at h
        · injection h with h1
          exact .inl h1.symm
        · split at h
          · injection h with h1
            exact .inr h1.symm
          · exact absurd h (by simp)

theorem decode_AntennaEvent_error_shape {d : List Nat} {e : PyErr}
    (h : decode_AntennaEvent d = .error e) : e = .structError := by
  unfold decode_AntennaEvent at h
  split at h
  · exact absurd h (by simp)
  · split at h
    · injection h with h1
      exact h1.symm
    · split at h
      · exact absurd h (by simp)
      · split at h
        · injection h with h1
          exact h1.symm
        · exact absurd h (by simp)

theorem decode_ConnectionCloseEvent_error_shape {d : List Nat} {e : PyErr}
    (h : decode_ConnectionCloseEvent d = .error e) : e = .structError := by
  unfold decode_ConnectionCloseEvent at h
  split at h
  · exact absurd h (by simp)
  · split at h
    · injection h with h1
      exact h1.symm
    · split at h
      · exact absurd h (by simp)
      · exact absurd h (by simp)

/-- C6 counterexample: a ReaderEventNotificationData parameter whose body
contains BOTH a UTCTimestamp and an Uptime child (`c6data`) decodes
successfully — the claim that the decoder fails when both timestamps are
present is false.  Only the UTCTimestamp is consumed; the Uptime bytes
are returned unconsumed. -/
theorem C6_both_timestamps_accepted :
    decode_ReaderEventNotificationData c6data =
      .ok (some { UTCTimestamp := some 0 },
           [0, 129, 0, 12, 0, 0, 0, 0, 0, 0, 0, 7]) := by
  rfl

/-- C6 (amended).  `decode_ReaderEventNotificationData` fails with
`MissingTimestamp` EXACTLY when the 4-byte header parses and neither a
UTCTimestamp nor an Uptime decodes at the front of the body; when the
first child is a UTCTimestamp, a following Uptime does not cause failure
— if the three event probes on the remainder report absence, the decode
succeeds with that remainder (which may hold the second timestamp)
unconsumed. -/
theorem C6_timestamp_requirement :
    (∀ (data : List Nat) (t L : Nat), data ≠ [] →
        unpack_HH (data.take 4) = some (t, L) →
        decode_UTCTimestamp (pySlice data 4 L) = .ok (none, pySlice data 4 L) →
        decode_Uptime (pySlice data 4 L) = .ok (none, pySlice data 4 L) →
        decode_ReaderEventNotificationData data = .error (.llrp missingTimestampMsg)) ∧
    (∀ data : List Nat,
        decode_ReaderEventNotificationData data = .error (.llrp missingTimestampMsg) →
        data ≠ [] ∧ ∃ t L, unpack_HH (data.take 4) = some (t, L) ∧
          decode_UTCTimestamp (pySlice data 4 L) = .ok (none, pySlice data 4 L) ∧
          decode_Uptime (pySlice data 4 L) = .ok (none, pySlice data 4 L)) ∧
    (∀ (data : List Nat) (t L u : Nat) (b1 : List Nat), data ≠ [] →
        unpack_HH (data.take 4) = some (t, L) →
        decode_UTCTimestamp (pySlice data 4 L) = .ok (some u, b1) →
        decode_ConnectionAttemptEvent b1 = .ok (none, b1) →
        decode_AntennaEvent b1 = .ok (none, b1) →
        decode_ConnectionCloseEvent b1 = .ok (none, b1) →
        decode_ReaderEventNotificationData data =
          .ok (some { UTCTimestamp := some u }, b1)) := by
  refine ⟨?_, ?_, ?_⟩
  · intro data t L hne hu hutc hup
    simp only [decode_ReaderEventNotificationData, if_neg hne, hu, hutc, hup]
  · intro data h
    by_cases hne : data = []
    · rw [hne] at h
      simp [decode_ReaderEventNotificationData] at h
    · refine ⟨hne, ?_⟩
      rcases hu : unpack_HH (data.take 4) with _ | ⟨t, L⟩
      · simp only [decode_ReaderEventNotificationData, if_neg hne, hu] at h
        simp at h
      · refine ⟨t, L, rfl, ?_⟩
        simp only [decode_ReaderEventNotificationData, if_neg hne, hu] at h
        rcases hutc : decode_UTCTimestamp (pySlice data 4 L) with eE | ⟨o, b1⟩
        · simp only [hutc] at h
          simp at h
          exact absurd (h ▸ decode_UTCTimestamp_error_shape hutc) (by simp)
        · simp only [hutc] at h
          cases o with
          | some u =>
            exfalso
            rcases hcae : decode_ConnectionAttemptEvent b1 with eE | ⟨cae, b2⟩
            · simp only [hcae] at h
              simp at h
              rcases decode_ConnectionAttemptEvent_error_shape hcae with h2 | h2 <;>
                simp [h2] at h
            · simp only [hcae] at h
              rcases hae : decode_AntennaEvent b2 with eE | ⟨ae, b3⟩
              · simp only [hae] at h
                simp at h
                exact absurd (h ▸ decode_AntennaEvent_error_shape hae) (by simp)
              · simp only [hae] at h
                rcases hcce : decode_ConnectionCloseEvent b3 with eE | ⟨cce, b4⟩
                · simp only [hcce] at h
                  simp at h
                  exact absurd (h ▸ decode_ConnectionCloseEvent_error_shape hcce)
                    (by simp)
                · simp only [hcce] at h
                  simp at h
          | none =>
            have hid := decode_UTCTimestamp_none_id hutc
            subst hid
            refine ⟨rfl, ?_⟩
            rcases hup : decode_Uptime (pySlice data 4 L) with eE | ⟨o2, b2⟩
            · simp only [hup] at h
              simp at h
              exact absurd (h ▸ decode_Uptime_error_shape hup) (by simp)
            · cases o2 with
              | some u =>
                exfalso
                simp only [hup] at h
                rcases hcae : decode_ConnectionAttemptEvent b2 with eE | ⟨cae, b3⟩
                · simp only [hcae] at h
                  simp at h
                  rcases decode_ConnectionAttemptEvent_error_shape hcae with h2 | h2 <;>
                    simp [h2] at h
                · simp only [hcae] at h
                  rcases hae : decode_AntennaEvent b3 with eE | ⟨ae, b4⟩
                  · simp only [hae] at h
                    simp at h
                    exact absurd (h ▸ decode_AntennaEvent_error_shape hae) (by simp)
                  · simp only [hae] at h
                    rcases hcce : decode_ConnectionCloseEvent b4 with eE | ⟨cce, b5⟩
                    · simp only [hcce] at h
                      simp at h
                      exact absurd (h ▸ decode_ConnectionCloseEvent_error_shape hcce)
                        (by simp)
                    · simp only [hcce] at h
                      simp at h
              | none =>
                have hid2 := decode_Uptime_none_id hup
                subst hid2
                exact rfl
  · intro data t L u b1 hne hu hutc hcae hae hcce
    simp only [decode_ReaderEventNotificationData, if_neg hne, hu, hutc, hcae,
      hae, hcce]

/-- C6 witness: amended part at concrete inputs — a header-only parameter
(empty body: neither timestamp) raises MissingTimestamp, via part 1. -/
theorem C6_timestamp_requirement_witness :
    decode_ReaderEventNotificationData [0, 246, 0, 4] =
      .error (.llrp missingTimestampMsg) :=
  C6_timestamp_requirement.1 [0, 246, 0, 4] 246 4 (by decide) (by rfl) (by rfl)
    (by rfl)

/-- C8 counterexample: the builder accepts `session = 4`, which is outside
[0..3], and returns the fully populated `c8value` instead of raising —
the claimed singulation-session validation does not exist. -/
theorem C8_session_not_validated :
    LLRPROSpec_init c8mode 1 0 "Disabled" [1] 91 none none [] 4 4 =
      .ok c8value := by
  rfl

/-- C8 (amended).  `LLRPROSpec.__init__` raises `LLRPError` for
`msgid ≤ 0`, for `priority` outside [0..7] and for an unknown `state`
name — but performs NO check on the singulation session — and for
in-range inputs returns a fully populated ROSpec: start trigger
Immediate, stop trigger Null (or Duration when a duration is given),
ROSpecID = msgid, report trigger Upon_N_Tags_Or_End_Of_AISpec, one
antenna configuration per antenna id. -/
theorem C8_builder_validation :
    ∀ (rm : ReaderMode) (msgid priority : Int) (state : String)
      (antennas : List Nat) (txPower : Nat) (durationSec reportN : Option Nat)
      (sel : SelectorDict) (session tagPopulation : Nat),
      (msgid ≤ 0 →
        LLRPROSpec_init rm msgid priority state antennas txPower durationSec
            reportN sel session tagPopulation =
          .error (.llrp "invalid ROSpec message ID (need >0)")) ∧
      (0 < msgid → (priority < 0 ∨ 7 < priority) →
        LLRPROSpec_init rm msgid priority state antennas txPower durationSec
            reportN sel session tagPopulation =
          .error (.llrp "invalid ROSpec priority (need [0-7])")) ∧
      (0 < msgid → 0 ≤ priority → priority ≤ 7 →
        lookupStr ROSpecState_Name2Type state = none →
        LLRPROSpec_init rm msgid priority state antennas txPower durationSec
            reportN sel session tagPopulation =
          .error (.llrp "invalid ROSpec state (need [Disabled,Inactive,Active])")) ∧
      (0 < msgid → 0 ≤ priority → priority ≤ 7 →
        (lookupStr ROSpecState_Name2Type state).isSome →
        (LLRPROSpec_init rm msgid priority state antennas txPower durationSec
            reportN sel session tagPopulation).map (fun r =>
          (r.ROSpecID,
           r.ROBoundarySpec.ROSpecStartTrigger.ROSpecStartTriggerType,
           r.ROBoundarySpec.ROSpecStopTrigger.ROSpecStopTriggerType,
           r.ROReportSpec.ROReportTrigger,
           r.AISpec.InventoryParameterSpec.AntennaConfiguration.length)) =
        .ok (msgid.toNat, "Immediate",
             (match durationSec with | none => "Null" | some _ => "Duration"),
             .str "Upon_N_Tags_Or_End_Of_AISpec", antennas.length)) := by
  intro rm msgid priority state antennas txPower durationSec reportN sel
    session tagPopulation
  refine ⟨?_, ?_, ?_, ?_⟩
  · intro h
    simp [LLRPROSpec_init, h]
  · intro h1 h2
    have hA : ¬(msgid ≤ 0) := by omega
    simp [LLRPROSpec_init, hA, h2]
  · intro h1 h2 h3 h4
    have hA : ¬(msgid ≤ 0) := by omega
    have hB : ¬(priority < 0 ∨ priority > 7) := by omega
    simp [LLRPROSpec_init, hA, hB, h4]
  · intro h1 h2 h3 h4
    have hA : ¬(msgid ≤ 0) := by omega
    have hB : ¬(priority < 0 ∨ priority > 7) := by omega
    have hC : ¬(lookupStr ROSpecState_Name2Type state).isNone := by
      simp only [Option.isNone_iff_eq_none]
      intro hcon
      rw [hcon] at h4
      simp at h4
    cases durationSec <;>
      simp [LLRPROSpec_init, hA, hB, hC, Except.map, List.length_map]

/-- C8 witness: amended parts at concrete inputs — msgid 0 raises; in-range
arguments (with session 2, duration 5 s, two antennas) produce the
populated value. -/
theorem C8_builder_validation_witness :
    LLRPROSpec_init c8mode 0 0 "Disabled" [1] 91 none none [] 2 4 =
        .error (.llrp "invalid ROSpec message ID (need >0)") ∧
      (LLRPROSpec_init c8mode 2 3 "Active" [1, 2] 91 (some 5) none [] 2 4).map
          (fun r =>
            (r.ROSpecID,
             r.ROBoundarySpec.ROSpecStartTrigger.ROSpecStartTriggerType,
             r.ROBoundarySpec.ROSpecStopTrigger.ROSpecStopTriggerType,
             r.ROReportSpec.ROReportTrigger,
             r.AISpec.InventoryParameterSpec.AntennaConfiguration.length)) =
        .ok (2, "Immediate", "Duration", .str "Upon_N_Tags_Or_End_Of_AISpec", 2) :=
  ⟨(C8_builder_validation c8mode 0 0 "Disabled" [1] 91 none none [] 2 4).1
      (by decide),
   (C8_builder_validation c8mode 2 3 "Active" [1, 2] 91 (some 5) none [] 2 4).2.2.2
      (by decide) (by decide) (by decide) (by decide)⟩

end LLRP
